import Mathlib

/-!
Shallow embedding of the audio-recorder application (React Native / Expo,
TypeScript) for specification checking.

Source files embedded here:
* `src/unnamed/part_000` (record screen, second revision: lock files,
  SAF-aware saving): `getFormattedFileName`, `createLockFile`,
  `removeLockFile`, `startRecording`, `stopRecording`, `loadSaveLocation`.
* `src/app/(tabs)/recordings.tsx` (recordings screen, mid revision):
  `loadRecordings`, `playRecording`, `deleteRecording`.
* `src/unnamed/part_002` (recordings screen, latest revision):
  `loadRecordings`, `playRecording`, `deleteRecording`.
* `src/unnamed/part_001` (recordings screen, first revision):
  `deleteRecording` (plain delete only).
* `src/app/(tabs)/settings.tsx`: `loadSettings`, `resetToDefault`.

JavaScript strings are embedded as `List Char`; JS string methods
(`startsWith`, `endsWith`, `includes`, `split`, `padStart`, `toString` on
numbers, `||` on strings) are translated below.  The platform file system
(expo-file-system, both the plain API and the Storage Access Framework) is
modelled per resolved save location as an association list from file name
to (content, modification time); a platform call that throws is modelled
as leaving storage unchanged, with the success of each external call an
explicit `Bool` parameter, mirroring the try/catch structure of the code.
-/

/-- JS strings, embedded as lists of characters. -/
abbrev Str := List Char

/-- Coerce a Lean string literal to the `Str` embedding. -/
def str (s : String) : Str := s.data

/-- JS `a || b` on strings: the empty string is falsy. -/
def jsOr (a b : Str) : Str := if a = [] then b else a

/-- JS `s.startsWith(pre)`. -/
def jsStartsWith (s pre : Str) : Bool := pre.isPrefixOf s

/-- JS `s.endsWith(suf)`. -/
def jsEndsWith (s suf : Str) : Bool := suf.isSuffixOf s

/-- JS `s.includes(sub)`. -/
def jsIncludes (s sub : Str) : Bool := decide (sub <:+: s)

/-- JS `s.padStart(2, '0')`. -/
def padStart2 (s : Str) : Str :=
  if 2 ≤ s.length then s else List.replicate (2 - s.length) '0' ++ s

/-- JS `s.split(sep)` for a one-character separator. -/
def splitCh (sep : Char) : Str → List Str
  | [] => [[]]
  | c :: rest =>
    match splitCh sep rest with
    | [] => [[]]
    | s :: ss => if c = sep then [] :: s :: ss else (c :: s) :: ss

/-- Decimal digit character for `n < 10` (JS number-to-string digits). -/
def decDigit (n : Nat) : Char :=
  if n = 0 then '0' else if n = 1 then '1' else if n = 2 then '2'
  else if n = 3 then '3' else if n = 4 then '4' else if n = 5 then '5'
  else if n = 6 then '6' else if n = 7 then '7' else if n = 8 then '8'
  else if n = 9 then '9' else '*'

/-- Fuel-driven decimal rendering; with fuel larger than the number of
digits it agrees with JS `n.toString()` for a nonnegative integer. -/
def natToStrAux : Nat → Nat → Str
  | 0, _ => []
  | fuel + 1, n =>
    if n < 10 then [decDigit n] else natToStrAux fuel (n / 10) ++ [decDigit (n % 10)]

/-- JS `n.toString()` for a natural number. -/
def natToStr (n : Nat) : Str := natToStrAux (n + 1) n


/-- Test an optional value against a predicate (`false` when absent). -/
def optTest (p : γ → Bool) : Option γ → Bool
  | some b => p b
  | none => false

/-! ## Wall clock

`new Date()` is embedded as the record of the getter values the code reads.
`getMonth()` returns 0..11; the code uses `getMonth() + 1`, and `month`
below already holds that one-based value.  `millis` is the sub-second part,
which `getFormattedFileName` does not read. -/

structure DateTime where
  year : Nat
  month : Nat
  day : Nat
  hours : Nat
  minutes : Nat
  seconds : Nat
  millis : Nat
deriving DecidableEq

/-- Ranges of the JS `Date` getters (year restricted to four-digit years,
which covers any date the device clock can plausibly report while the app
exists). -/
def ValidDate (d : DateTime) : Prop :=
  1000 ≤ d.year ∧ d.year < 10000 ∧ 1 ≤ d.month ∧ d.month ≤ 12 ∧
    1 ≤ d.day ∧ d.day ≤ 31 ∧ d.hours ≤ 23 ∧ d.minutes ≤ 59 ∧ d.seconds ≤ 59

instance (d : DateTime) : Decidable (ValidDate d) := by
  unfold ValidDate; infer_instance

/-- Two `Date` values falling in the same wall-clock second: all fields the
file-name formatter reads agree, only the sub-second part may differ. -/
def sameSecond (d e : DateTime) : Prop :=
  d.year = e.year ∧ d.month = e.month ∧ d.day = e.day ∧
    d.hours = e.hours ∧ d.minutes = e.minutes ∧ d.seconds = e.seconds

instance (d e : DateTime) : Decidable (sameSecond d e) := by
  unfold sameSecond; infer_instance

/-- `src/unnamed/part_000` `getFormattedFileName` (identical in both
revisions of the record screen): template
`${year}-${month}-${day} ${hours}-${minutes}-${seconds} 0.m4a` with the
month, day, hours, minutes and seconds padded via `padStart(2, '0')` and
the trailing disambiguator the literal character `0`. -/
def getFormattedFileName (now : DateTime) : Str :=
  natToStr now.year ++ str "-" ++ padStart2 (natToStr now.month) ++ str "-" ++
    padStart2 (natToStr now.day) ++ str " " ++ padStart2 (natToStr now.hours) ++
    str "-" ++ padStart2 (natToStr now.minutes) ++ str "-" ++
    padStart2 (natToStr now.seconds) ++ str " 0.m4a"

/-! ## Storage

One resolved save location is a directory: an association list from file
name to content and modification time, newest write first.  The plain
expo-file-system API and the Storage Access Framework both act on it.  A
SAF directory is addressed by a tree URI such as
`content://authority/tree/primary%3AMusic`; `readDirectoryAsync` returns
one document URI per entry, of the form
`treeUri ++ "/document/" ++ treeId ++ "%2F" ++ name`, whose last
`/`-segment is the percent-encoded document id — not the bare file name
(`part_002`'s `getDisplayName` decodes exactly this `%2F` encoding). -/

structure DirEntry where
  name : Str
  content : Str
  mtime : Nat
deriving DecidableEq

abbrev Dir := List DirEntry

/-- Remove every entry called `n` (plain `deleteAsync`, also used to state
that a write replaces an existing file of the same name). -/
def dirErase (d : Dir) (n : Str) : Dir := d.filter (fun e => !decide (e.name = n))

/-- Write file `n` with content `c` at time `t`, replacing any existing
file of that name (`copyAsync` / `writeAsStringAsync` to an existing
target overwrite it). -/
def dirWrite (d : Dir) (n c : Str) (t : Nat) : Dir := ⟨n, c, t⟩ :: dirErase d n

/-- `readDirectoryAsync`: the file names present. -/
def dirNames (d : Dir) : List Str := d.map (fun e => e.name)

/-- Content of file `n`, if present. -/
def dirGet : Dir → Str → Option Str
  | [], _ => none
  | e :: es, n => if e.name = n then some e.content else dirGet es n

/-- Number of lock-marker files (`*.lock`) present in a directory. -/
def lockCount (d : Dir) : Nat :=
  ((dirNames d).filter (fun n => jsEndsWith n (str ".lock"))).length

/-- The lock-marker file names present in a directory. -/
def locksOf (d : Dir) : List Str :=
  (dirNames d).filter (fun n => jsEndsWith n (str ".lock"))


/-- Candidate display names the SAF provider tries when `n` is taken:
`n (1)`, `n (2)`, ... (the numeric-suffix scheme Android document
providers use; the exact scheme is provider-defined, and no theorem
depends on more than the chosen name being distinct from `n`). -/
def safDocNameLoop (names : List Str) (n : Str) : Nat → Nat → Str
  | 0, k => n ++ str " (" ++ natToStr k ++ str ")"
  | fuel + 1, k =>
    if decide ((n ++ str " (" ++ natToStr k ++ str ")") ∈ names) then
      safDocNameLoop names n fuel (k + 1)
    else n ++ str " (" ++ natToStr k ++ str ")"

/-- The display name `StorageAccessFramework.createFileAsync` actually
assigns: the requested name when free, otherwise a uniquified variant —
the call creates a new document and never overwrites an existing
same-named entry. -/
def safDocName (d : Dir) (n : Str) : Str :=
  if decide (n ∈ dirNames d) then safDocNameLoop (dirNames d) n (d.length + 1) 1 else n

/-- `StorageAccessFramework.createFileAsync` followed by writing `c` into
the fresh document: a new entry under the provider-assigned name is
added; nothing is replaced. -/
def safCreateFileAsync (d : Dir) (n c : Str) (t : Nat) : Dir :=
  ⟨safDocName d n, c, t⟩ :: d

/-! ## Persisted save location (AsyncStorage key `saveLocation`)

The key-value store holds at most this one key, embedded as `Option Str`.
`docDir` always stands for the JS expression
`FileSystem.documentDirectory || ''`, the private-storage document
directory. -/

/-- `loadSaveLocation` in `src/unnamed/part_000`, `loadSettings` in
`src/app/(tabs)/settings.tsx` and the lookup in
`loadSaveLocationAndRecordings` (`recordings.tsx`, `part_002`) all run the
same logic: a present, non-empty stored value wins, otherwise the private
document directory. -/
def loadSaveLocation (kv : Option Str) (docDir : Str) : Str :=
  match kv with
  | some v => if v = [] then docDir else v
  | none => docDir

/-- `resetToDefault` in `src/app/(tabs)/settings.tsx`: writes the document
directory into the `saveLocation` key (it does not remove the key) and
mirrors it into component state.  Returns (new store, new component
state). -/
def resetToDefault (_kv : Option Str) (docDir : Str) : Option Str × Str :=
  (some docDir, docDir)

/-- The repeated dispatch test `targetLocation.startsWith('content://')`
(guarded by JS truthiness of the string where the code writes
`targetLocation && targetLocation.startsWith(...)`). -/
def scopedTarget (t : Str) : Bool := !decide (t = []) && jsStartsWith t (str "content://")

/-- `saveLocation || FileSystem.documentDirectory || ''`, the resolution
every file operation in the record screen starts from. -/
def resolveTarget (saveLocation docDir : Str) : Str := jsOr saveLocation (jsOr docDir [])

/-! ## Record screen (`src/unnamed/part_000`, second revision)

Component state.  React state updates inside one event handler are
modelled as taking effect immediately (sequential state passing). -/

structure RecorderState where
  isRecording : Bool
  recordTime : Str
  recording : Option Str
  lockFileName : Str
  saveLocation : Str
deriving DecidableEq

/-- State when the screen mounts with a given resolved save location. -/
def initialRecorderState (saveLoc : Str) : RecorderState :=
  { isRecording := false, recordTime := str "00:00", recording := none,
    lockFileName := [], saveLocation := saveLoc }

/-- `createLockFile`: writes the sentinel `recording.lock` into the target
location (via SAF `createFileAsync` + `writeAsStringAsync` for
`content://` targets, via `writeAsStringAsync` on
`${targetLocation}${lockName}` otherwise) and records the lock name in
state.  A throwing platform call (`writeOk = false`) is caught: the
function returns null leaving state and storage unchanged. -/
def createLockFile (st : RecorderState) (dir : Dir) (docDir : Str)
    (writeOk : Bool) (tMs : Nat) : RecorderState × Dir :=
  if writeOk then
    let targetLocation := resolveTarget st.saveLocation docDir
    if scopedTarget targetLocation then
      ({ st with lockFileName := str "recording.lock" },
        safCreateFileAsync dir (str "recording.lock") (str "RECORDING_IN_PROGRESS") tMs)
    else
      ({ st with lockFileName := str "recording.lock" },
        dirWrite dir (str "recording.lock") (str "RECORDING_IN_PROGRESS") tMs)
  else (st, dir)

/-- `removeLockFile`: nothing to do when no lock name is recorded.  For a
`content://` target the code deliberately does not delete the sentinel
file ("This is complex with SAF, so we'll just clear the state for now");
it only clears the recorded name.  For a plain target it deletes
`${targetLocation}${lockFileName}` idempotently and clears the name. -/
def removeLockFile (st : RecorderState) (dir : Dir) (docDir : Str) :
    RecorderState × Dir :=
  if st.lockFileName = [] then (st, dir)
  else
    let targetLocation := resolveTarget st.saveLocation docDir
    if scopedTarget targetLocation then
      ({ st with lockFileName := [] }, dir)
    else
      ({ st with lockFileName := [] }, dirErase dir st.lockFileName)

/-- `startRecording`: requires microphone permission; creates the lock
file, then starts capture (`Audio.Recording.createAsync`, success
`recOk`).  On capture failure the catch block removes the lock file and
alerts; state then still shows no active recording. -/
def startRecording (st : RecorderState) (dir : Dir) (docDir : Str)
    (hasPermission : Bool) (lockOk : Bool) (recOk : Bool) (tempUri : Str)
    (tMs : Nat) : RecorderState × Dir :=
  if hasPermission then
    let (st1, dir1) := createLockFile st dir docDir lockOk tMs
    if recOk then
      ({ st1 with recording := some tempUri, isRecording := true }, dir1)
    else
      removeLockFile st1 dir1 docDir
  else (st, dir)

/-- `stopRecording`: no-op without an active recording.  Otherwise it ends
capture, derives the artifact name from the current wall clock, saves the
captured bytes into the resolved location — SAF `createFileAsync` plus a
base64 read/rewrite for `content://` targets, `copyAsync` to
`${fallbackLocation}${formattedFileName}` otherwise; a throwing save
(`saveOk = false`) is caught and alerted — then removes the lock file and
resets the component to idle.  `content` is the captured temp file's
bytes; `getURI()` is modelled as non-null after a successful stop.  The
plain `copyAsync` overwrites a same-named destination; the SAF
`createFileAsync` never does — it creates a fresh document, uniquifying
a colliding display name (`safCreateFileAsync`). -/
def stopRecording (st : RecorderState) (dir : Dir) (docDir : Str)
    (now : DateTime) (content : Str) (saveOk : Bool) (tMs : Nat) :
    RecorderState × Dir :=
  match st.recording with
  | none => (st, dir)
  | some _ =>
    let formattedFileName := getFormattedFileName now
    let targetLocation := resolveTarget st.saveLocation docDir
    let dir1 :=
      if saveOk then
        if scopedTarget targetLocation then
          safCreateFileAsync dir formattedFileName content tMs
        else
          dirWrite dir formattedFileName content tMs
      else dir
    let (st1, dir2) := removeLockFile st dir1 docDir
    let st2 := { st1 with recording := none, isRecording := false, recordTime := str "00:00" }
    (st2, dir2)

/-! ## Recording list entries and the two sort orders -/

structure RecordingInfo where
  name : Str
  uri : Str
  size : Nat
  modificationTime : Nat
deriving DecidableEq

/-- Stable insertion of `x` in front of the first element it may precede
(JS `Array.prototype.sort` is stable). -/
def insertLe (le : α → α → Bool) (x : α) : List α → List α
  | [] => [x]
  | y :: ys => if le x y then x :: y :: ys else y :: insertLe le x ys

/-- Stable sort under the comparator-derived relation
`le a b = (comparator(a, b) ≤ 0)`. -/
def sortByLe (le : α → α → Bool) (l : List α) : List α := l.foldr (insertLe le) []

/-- `recordings.tsx` comparator `(a, b) => b.modificationTime -
a.modificationTime`: `a` may precede `b` iff the comparator is ≤ 0, i.e.
newest first. -/
def byTimeDesc (a b : RecordingInfo) : Bool :=
  decide (b.modificationTime ≤ a.modificationTime)

/-- Code-point comparison standing in for `localeCompare`; the artifact
names the app produces are ASCII, where the default locale agrees with
code-point order. -/
def strLe : Str → Str → Bool
  | [], _ => true
  | _ :: _, [] => false
  | a :: as, b :: bs =>
    if a.val < b.val then true else if b.val < a.val then false else strLe as bs

/-- `part_002` comparator `(a, b) => a.name.localeCompare(b.name)`:
alphabetical by name. -/
def byNameAsc (a b : RecordingInfo) : Bool := strLe a.name b.name

/-! ## SAF timestamp recovery (`part_002` scoped listing) -/

def isDigitCh (c : Char) : Bool := decide ('0' ≤ c) && decide (c ≤ '9')

def digitVal (c : Char) : Nat := c.toNat - 48

/-- Match the regex `(\d{4})-(\d{2})-(\d{2}) (\d{2})-(\d{2})-(\d{2})` at
the head of the string, returning the six numeric groups. -/
def matchTimestampAt : Str → Option (Nat × Nat × Nat × Nat × Nat × Nat)
  | y1 :: y2 :: y3 :: y4 :: c1 :: mo1 :: mo2 :: c2 :: d1 :: d2 :: c3 ::
      h1 :: h2 :: c4 :: mi1 :: mi2 :: c5 :: s1 :: s2 :: _ =>
    if isDigitCh y1 && isDigitCh y2 && isDigitCh y3 && isDigitCh y4 &&
        c1 = '-' && isDigitCh mo1 && isDigitCh mo2 && c2 = '-' &&
        isDigitCh d1 && isDigitCh d2 && c3 = ' ' &&
        isDigitCh h1 && isDigitCh h2 && c4 = '-' &&
        isDigitCh mi1 && isDigitCh mi2 && c5 = '-' &&
        isDigitCh s1 && isDigitCh s2 then
      some (((digitVal y1 * 10 + digitVal y2) * 10 + digitVal y3) * 10 + digitVal y4,
        digitVal mo1 * 10 + digitVal mo2, digitVal d1 * 10 + digitVal d2,
        digitVal h1 * 10 + digitVal h2, digitVal mi1 * 10 + digitVal mi2,
        digitVal s1 * 10 + digitVal s2)
    else none
  | _ => none

/-- Leftmost regex match, scanning as `String.prototype.match` does. -/
def findTimestamp : Str → Option (Nat × Nat × Nat × Nat × Nat × Nat)
  | [] => none
  | c :: rest =>
    match matchTimestampAt (c :: rest) with
    | some r => some r
    | none => findTimestamp rest

/-- `new Date(y, mo - 1, d, h, mi, s).getTime() / 1000`.  The platform's
calendar-to-epoch conversion is abstracted as an injective encoding of the
six fields; no theorem below depends on the numeric value, only on the
listing entry existing. -/
def jsDateSeconds (y mo d h mi s : Nat) : Nat :=
  ((((y * 12 + (mo - 1)) * 31 + (d - 1)) * 24 + h) * 60 + mi) * 60 + s

/-- `getInfoAsync` / `getUriInfoAsync` metadata for one file. -/
def dirInfo : Dir → Str → Option DirEntry
  | [], _ => none
  | e :: es, n => if e.name = n then some e else dirInfo es n

/-! ## The two listing implementations

Both take: `locationToUse` (the optional argument, `[]` when absent),
the component state `stateLoc`, the private `docDir`, the persisted key
`kv`, the resolved location's directory `dir`, the success of the scoped
(`safOk`) and plain (`plainOk`) enumeration calls, and the current time.
They return the displayed list, the key-value store afterwards and the
component `saveLocation` state afterwards. -/

/-- The percent-encoded document id a SAF provider assigns to entry
`n` of the tree `loc`: the tree's own id (the last segment of the tree
URI) joined to the name with an encoded slash. -/
def safDocId (loc n : Str) : Str :=
  (splitCh '/' loc).getLastD [] ++ str "%2F" ++ n

/-- The document URI `StorageAccessFramework.readDirectoryAsync` returns
for entry `n` of the tree `loc`. -/
def safEntryUri (loc n : Str) : Str :=
  loc ++ str "/document/" ++ safDocId loc n

/-- Plain-branch listing entry shared by both revisions:
`getInfoAsync` on `${targetLocation}${file}`, `info.size || 0` and
`info.modificationTime || 0`. -/
def plainEntry_v1 (dir : Dir) (targetLocation f : Str) : RecordingInfo :=
  match dirInfo dir f with
  | some e => ⟨f, targetLocation ++ f, e.content.length, e.mtime⟩
  | none => ⟨f, targetLocation ++ f, 0, 0⟩

/-- `part_002` plain-branch entry: same, but the modification time is
divided by 1000. -/
def plainEntry_v2 (dir : Dir) (targetLocation f : Str) : RecordingInfo :=
  match dirInfo dir f with
  | some e => ⟨f, targetLocation ++ f, e.content.length, e.mtime / 1000⟩
  | none => ⟨f, targetLocation ++ f, 0, 0⟩

/-- `part_002` scoped-branch entry for one SAF document URI: take
`fileUri.split('/').pop() || fileUri` — the last URI segment, i.e. the
percent-encoded document id — keep the entry only when that identifier
ends in `.m4a` and does not contain `lock`, parse the timestamp out of it
(falling back to now), and best-effort resolve a size (the platform
metadata lookup is modelled as a directory lookup keyed by the recovered
identifier, degrading to 0; no theorem reads the size or time fields). -/
def safEntry_v2 (dir : Dir) (nowSec : Nat) (fileUri : Str) : Option RecordingInfo :=
  let fileName := jsOr ((splitCh '/' fileUri).getLastD []) fileUri
  if !jsEndsWith fileName (str ".m4a") || jsIncludes fileName (str "lock") then
    none
  else
    let modificationTime :=
      match findTimestamp fileName with
      | some (y, mo, d, h, mi, s) => jsDateSeconds y mo d h mi s
      | none => nowSec
    let fileSize :=
      match dirInfo dir fileName with
      | some e => e.content.length
      | none => 0
    some ⟨fileName, fileUri, fileSize, modificationTime⟩

/-- `loadRecordings` in `src/app/(tabs)/recordings.tsx`: a failed SAF
enumeration only yields an empty list (the persisted key and the state
location are untouched); the scoped branch treats each returned document
URI as a file name, reports size 0 and `Date.now()` as the time; results
are sorted by modification time, newest first. -/
def loadRecordings_v1 (locationToUse stateLoc docDir : Str) (kv : Option Str)
    (dir : Dir) (safOk plainOk : Bool) (nowMs : Nat) :
    List RecordingInfo × Option Str × Str :=
  let targetLocation := jsOr locationToUse (jsOr stateLoc (jsOr docDir []))
  if jsStartsWith targetLocation (str "content://") then
    if safOk then
      let files := (dirNames dir).map (safEntryUri targetLocation)
      let recordingFiles := files.filter
        (fun f => jsEndsWith f (str ".m4a") && !jsEndsWith f (str ".lock"))
      let infos := recordingFiles.map (fun fileName =>
        (⟨fileName, targetLocation ++ str "/" ++ fileName, 0, nowMs⟩ : RecordingInfo))
      (sortByLe byTimeDesc infos, kv, stateLoc)
    else ([], kv, stateLoc)
  else
    if plainOk then
      let recordingFiles := (dirNames dir).filter
        (fun f => jsEndsWith f (str ".m4a") && !jsEndsWith f (str ".lock"))
      (sortByLe byTimeDesc (recordingFiles.map (plainEntry_v1 dir targetLocation)), kv, stateLoc)
    else ([], kv, stateLoc)

/-- `loadRecordings` in `src/unnamed/part_002`: a failed SAF enumeration
clears the persisted `saveLocation` key (`AsyncStorage.removeItem`), sets
the state location back to the document directory and shows an empty
list.  The scoped branch runs `fileUri.split('/').pop() || fileUri` on
each document URI — which recovers the percent-encoded document id, not
the bare file name — drops entries that are not `.m4a` or whose
recovered identifier contains `lock`, best-effort parses the timestamp
out of it (falling back to now) and looks up the size; the plain branch
filters names and stats each file, dividing the reported modification
time by 1000.  Results are sorted alphabetically by name. -/
def loadRecordings_v2 (locationToUse stateLoc docDir : Str) (kv : Option Str)
    (dir : Dir) (safOk plainOk : Bool) (nowSec : Nat) :
    List RecordingInfo × Option Str × Str :=
  let targetLocation := jsOr locationToUse (jsOr stateLoc (jsOr docDir []))
  if jsStartsWith targetLocation (str "content://") then
    if safOk then
      let files := (dirNames dir).map (safEntryUri targetLocation)
      (sortByLe byNameAsc (files.filterMap (safEntry_v2 dir nowSec)), kv, stateLoc)
    else ([], none, jsOr docDir [])
  else
    if plainOk then
      let recordingFiles := (dirNames dir).filter
        (fun f => jsEndsWith f (str ".m4a") && !jsEndsWith f (str ".lock"))
      (sortByLe byNameAsc (recordingFiles.map (plainEntry_v2 dir targetLocation)), kv, stateLoc)
    else ([], kv, stateLoc)

/-! ## Deletion (three revisions) -/

inductive StorageApi where
  | saf
  | plain
deriving DecidableEq

/-- The two deletion backends, each able to remove only the entries it
owns: `FileSystem.deleteAsync` cannot remove a SAF document (it throws on
a `content://` URI, leaving it in place), and vice versa. -/
structure FileWorld where
  safFiles : List Str
  plainFiles : List Str
deriving DecidableEq

def safDeleteAsync (w : FileWorld) (uri : Str) : FileWorld :=
  { w with safFiles := w.safFiles.filter (fun u => !decide (u = uri)) }

def fsDeleteAsync (w : FileWorld) (uri : Str) : FileWorld :=
  { w with plainFiles := w.plainFiles.filter (fun u => !decide (u = uri)) }

/-- `deleteRecording` confirm action in `src/unnamed/part_002`: dispatches
on the URI scheme. -/
def deleteRecording_v2 (w : FileWorld) (uri : Str) : FileWorld :=
  if jsStartsWith uri (str "content://") then safDeleteAsync w uri
  else fsDeleteAsync w uri

/-- `deleteRecording` confirm action in `src/app/(tabs)/recordings.tsx`:
always `FileSystem.deleteAsync(uri)`, whatever the scheme. -/
def deleteRecording_v1 (w : FileWorld) (uri : Str) : FileWorld :=
  fsDeleteAsync w uri

/-- `deleteRecording` confirm action in `src/unnamed/part_001`: always
`FileSystem.deleteAsync(uri)`. -/
def deleteRecording_v0 (w : FileWorld) (uri : Str) : FileWorld :=
  fsDeleteAsync w uri

/-- The storage API a location routes through: every file-operation call
site branches on `location.startsWith('content://')` (SAF) versus the
plain expo-file-system calls. -/
def apiForLocation (loc : Str) : StorageApi :=
  if jsStartsWith loc (str "content://") then StorageApi.saf else StorageApi.plain

/-! ## Playback controller (`playRecording`, identical in
`recordings.tsx` and `part_002`) -/

structure PlaybackState where
  playingSound : Option Nat
  playingUri : Option Str
deriving DecidableEq

/-- Loaded sound objects of the audio engine, by handle. -/
structure AudioWorld where
  loaded : List Nat
  nextId : Nat
deriving DecidableEq

def unloadAsync (w : AudioWorld) (s : Nat) : AudioWorld :=
  { w with loaded := w.loaded.filter (fun i => !decide (i = s)) }

def soundCreateAsync (w : AudioWorld) : Nat × AudioWorld :=
  (w.nextId, { loaded := w.nextId :: w.loaded, nextId := w.nextId + 1 })

/-- `playRecording(uri)`: unload whatever is loaded, then — testing the
`playingUri` value captured when the handler was created, i.e. the
pre-call state — either stop there (same recording tapped again: toggle)
or create and start a new sound (`createOk` is the success of
`Audio.Sound.createAsync`; its failure is caught and alerted). -/
def playRecording (st : PlaybackState) (w : AudioWorld) (uri : Str)
    (createOk : Bool) : PlaybackState × AudioWorld :=
  let (st1, w1) :=
    match st.playingSound with
    | some s => ({ playingSound := none, playingUri := none }, unloadAsync w s)
    | none => (st, w)
  if st.playingUri = some uri then (st1, w1)
  else if createOk then
    let (sid, w2) := soundCreateAsync w1
    ({ playingSound := some sid, playingUri := some uri }, w2)
  else (st1, w1)

/-- A two-artifact directory where alphabetical order and
newest-first order disagree: the older file sorts first by name. -/
def demoDirC8 : Dir :=
  [⟨str "2025-01-01 10-00-00 0.m4a", str "aaaa", 5000⟩,
   ⟨str "2025-01-02 11-00-00 0.m4a", str "bb", 9000⟩]

/-- Second-session state for the witness run: the first stop's state with
capture active again. -/
def stB3 (stA : RecorderState) : RecorderState :=
  { stA with recording := some (str "file:///tmp/u2.m4a") }

/-- Plain-path two-stop run for the same-second analysis: start state,
first stop, second stop. -/
def c3PlainStart : RecorderState :=
  ⟨true, str "00:02", some (str "file:///tmp/u1.m4a"), [], str "file:///data/"⟩

def c3PlainRun1 : RecorderState × Dir :=
  stopRecording c3PlainStart [] (str "file:///dflt/") (DateTime.mk 2025 6 7 8 9 10 100)
    (str "FIRST") true 1

def c3PlainRun2 : RecorderState × Dir :=
  stopRecording (stB3 c3PlainRun1.1) c3PlainRun1.2 (str "file:///dflt/")
    (DateTime.mk 2025 6 7 8 9 10 900) (str "SECOND") true 2

/-- The same two-stop run with a scoped (`content://`) save location. -/
def c3ScopedStart : RecorderState :=
  ⟨true, str "00:02", some (str "file:///tmp/u1.m4a"), [], str "content://music"⟩

def c3ScopedRun1 : RecorderState × Dir :=
  stopRecording c3ScopedStart [] (str "file:///dflt/") (DateTime.mk 2025 6 7 8 9 10 100)
    (str "FIRST") true 1

def c3ScopedRun2 : RecorderState × Dir :=
  stopRecording (stB3 c3ScopedRun1.1) c3ScopedRun1.2 (str "file:///dflt/")
    (DateTime.mk 2025 6 7 8 9 10 900) (str "SECOND") true 2

/-- Save-then-list runs: one stop into a plain location over a one-file
directory, and one stop into a scoped tree over an empty directory. -/
def c7PlainStart : RecorderState :=
  ⟨true, str "00:05", some (str "file:///tmp/w.m4a"), [], str "file:///data/"⟩

def c7PlainRun : RecorderState × Dir :=
  stopRecording c7PlainStart [(⟨str "old.m4a", str "x", 3⟩ : DirEntry)] (str "file:///dd/")
    (DateTime.mk 2025 10 11 12 13 14 15) (str "NEWBYTES") true 4

def c7ScopedStart : RecorderState :=
  ⟨true, str "00:05", some (str "file:///tmp/w.m4a"), [],
    str "content://a/tree/primary%3AMusic"⟩

def c7ScopedRun : RecorderState × Dir :=
  stopRecording c7ScopedStart [] (str "file:///dd/")
    (DateTime.mk 2025 10 11 12 13 14 15) (str "NEWBYTES") true 4

/-! ## Suffix helpers -/

theorem suffix_of_suffix_append (x y s : Str) (h : s <:+ y) : s <:+ x ++ y :=
  h.trans (List.suffix_append x y)

theorem suffix_eq_of_length {α : Type} {l s1 s2 : List α}
    (h1 : s1 <:+ l) (h2 : s2 <:+ l) (h : s1.length = s2.length) : s1 = s2 := by
  obtain ⟨t1, ht1⟩ := h1
  obtain ⟨t2, ht2⟩ := h2
  have := ht1.trans ht2.symm
  exact (List.append_inj' this h).2

/-! ## Basic lemmas about the storage model -/

theorem dirNames_dirWrite (d : Dir) (n c : Str) (t : Nat) :
    dirNames (dirWrite d n c t) = n :: dirNames (dirErase d n) := rfl

theorem dirNames_dirErase (d : Dir) (n : Str) :
    dirNames (dirErase d n) = (dirNames d).filter (fun m => !decide (m = n)) := by
  induction d with
  | nil => rfl
  | cons e es ih =>
    by_cases h : e.name = n <;>
      simp [dirErase, dirNames, List.filter_cons, h] at ih ⊢ <;> exact ih

theorem mem_dirNames_dirErase {d : Dir} {m n : Str} :
    m ∈ dirNames (dirErase d n) ↔ m ∈ dirNames d ∧ ¬(m = n) := by
  rw [dirNames_dirErase]; simp

theorem dirGet_dirWrite_self (d : Dir) (n c : Str) (t : Nat) :
    dirGet (dirWrite d n c t) n = some c := by
  simp [dirGet, dirWrite]

theorem dirGet_cons_self (d : Dir) (n c : Str) (t : Nat) :
    dirGet ((⟨n, c, t⟩ : DirEntry) :: d) n = some c := by
  simp [dirGet]

theorem dirNames_cons (e : DirEntry) (d : Dir) :
    dirNames (e :: d) = e.name :: dirNames d := rfl

theorem dirGet_cons_ne {m n : Str} (d : Dir) (c : Str) (t : Nat) (h : ¬(m = n)) :
    dirGet ((⟨m, c, t⟩ : DirEntry) :: d) n = dirGet d n := by
  simp [dirGet, h]

theorem dirGet_dirErase_ne {d : Dir} {m n : Str} (h : ¬(m = n)) :
    dirGet (dirErase d n) m = dirGet d m := by
  induction d with
  | nil => rfl
  | cons e es ih =>
    by_cases he : e.name = n
    · have hnm : ¬(n = m) := fun hc => h hc.symm
      simp [dirErase, dirGet, List.filter_cons, he, hnm] at ih ⊢
      exact ih
    · by_cases hm : e.name = m
      · simp [dirErase, dirGet, List.filter_cons, he, hm, h]
      · simp [dirErase, dirGet, List.filter_cons, he, hm] at ih ⊢
        exact ih

theorem lockCount_eq_length_locksOf (d : Dir) : lockCount d = (locksOf d).length := rfl

theorem locksOf_dirErase (d : Dir) (n : Str) :
    locksOf (dirErase d n) = (locksOf d).filter (fun m => !decide (m = n)) := by
  unfold locksOf
  rw [dirNames_dirErase, List.filter_filter, List.filter_filter]
  apply List.filter_congr
  intro m _
  exact Bool.and_comm _ _

theorem locksOf_dirWrite (d : Dir) (n c : Str) (t : Nat) :
    locksOf (dirWrite d n c t) =
      (if jsEndsWith n (str ".lock") then [n] else []) ++
        (locksOf d).filter (fun m => !decide (m = n)) := by
  have hL : locksOf (dirWrite d n c t) =
      (if jsEndsWith n (str ".lock") then [n] else []) ++ locksOf (dirErase d n) := by
    unfold locksOf
    rw [dirNames_dirWrite, List.filter_cons]
    by_cases h : jsEndsWith n (str ".lock") = true <;> simp [h]
  rw [hL, locksOf_dirErase]

theorem locksOf_cons (e : DirEntry) (d : Dir) :
    locksOf (e :: d) =
      (if jsEndsWith e.name (str ".lock") then [e.name] else []) ++ locksOf d := by
  unfold locksOf dirNames
  rw [List.map_cons, List.filter_cons]
  by_cases h : jsEndsWith e.name (str ".lock") = true <;> simp [h]

theorem locksOf_cons_lockfile {d : Dir} (c : Str) (t : Nat) (h : locksOf d = []) :
    locksOf ((⟨str "recording.lock", c, t⟩ : DirEntry) :: d) = [str "recording.lock"] := by
  rw [locksOf_cons, h]
  simp [show jsEndsWith (str "recording.lock") (str ".lock") = true from by decide]

theorem locksOf_cons_artifact {d : Dir} (n c : Str) (t : Nat)
    (hn : jsEndsWith n (str ".lock") = false) :
    locksOf ((⟨n, c, t⟩ : DirEntry) :: d) = locksOf d := by
  rw [locksOf_cons]
  simp [hn]

theorem safDocName_of_not_mem {d : Dir} {n : Str} (h : n ∉ dirNames d) :
    safDocName d n = n := by
  simp [safDocName, h]

theorem safDocNameLoop_suffix_paren (names : List Str) (n : Str) :
    ∀ fuel k, str ")" <:+ safDocNameLoop names n fuel k := by
  intro fuel
  induction fuel with
  | zero =>
    intro k
    unfold safDocNameLoop
    exact List.suffix_append _ _
  | succ fuel ih =>
    intro k
    unfold safDocNameLoop
    by_cases h : decide ((n ++ str " (" ++ natToStr k ++ str ")") ∈ names) = true
    · rw [if_pos h]
      exact ih (k + 1)
    · rw [if_neg h]
      exact List.suffix_append _ _

theorem not_endsWith_lock_of_suffix_paren {s : Str} (h : str ")" <:+ s) :
    jsEndsWith s (str ".lock") = false := by
  unfold jsEndsWith
  rw [Bool.eq_false_iff]
  intro hk
  rw [List.isSuffixOf_iff_suffix] at hk
  have h1 : ['k'] <:+ s := (show ['k'] <:+ str ".lock" by decide).trans hk
  have h2 := suffix_eq_of_length h1 h (by decide)
  exact absurd h2 (by decide)

theorem safDocName_not_lock {d : Dir} {n : Str}
    (h : jsEndsWith n (str ".lock") = false) :
    jsEndsWith (safDocName d n) (str ".lock") = false := by
  unfold safDocName
  by_cases hm : decide (n ∈ dirNames d) = true
  · rw [if_pos hm]
    exact not_endsWith_lock_of_suffix_paren (safDocNameLoop_suffix_paren _ _ _ _)
  · rw [if_neg hm]
    exact h

theorem safDocNameLoop_length (names : List Str) (n : Str) :
    ∀ fuel k, n.length < (safDocNameLoop names n fuel k).length := by
  have hl2 : (str " (").length = 2 := by decide
  have hl1 : (str ")").length = 1 := by decide
  intro fuel
  induction fuel with
  | zero =>
    intro k
    unfold safDocNameLoop
    simp [List.length_append, hl2, hl1]
  | succ fuel ih =>
    intro k
    unfold safDocNameLoop
    by_cases h : decide ((n ++ str " (" ++ natToStr k ++ str ")") ∈ names) = true
    · rw [if_pos h]
      exact ih (k + 1)
    · rw [if_neg h]
      simp [List.length_append, hl2, hl1]

theorem safDocName_ne_of_mem {d : Dir} {n : Str} (h : n ∈ dirNames d) :
    ¬(safDocName d n = n) := by
  unfold safDocName
  rw [if_pos (by simpa using h)]
  intro he
  have h2 := safDocNameLoop_length (dirNames d) n (d.length + 1) 1
  rw [he] at h2
  omega

theorem lockname_not_mem_of_locksOf_nil {d : Dir} (h : locksOf d = []) :
    str "recording.lock" ∉ dirNames d := by
  intro hm
  have h2 : str "recording.lock" ∈ locksOf d := by
    unfold locksOf
    rw [List.mem_filter]
    exact ⟨hm, by decide⟩
  rw [h] at h2
  exact List.not_mem_nil _ h2

/-! ## Characters of rendered numbers and of artifact names -/

theorem decDigit_isDigit {n : Nat} (h : n < 10) : isDigitCh (decDigit n) = true := by
  interval_cases n <;> decide

theorem mem_natToStrAux_isDigit :
    ∀ f n c, c ∈ natToStrAux f n → isDigitCh c = true := by
  intro f
  induction f with
  | zero => intro n c h; simp [natToStrAux] at h
  | succ f ih =>
    intro n c h
    unfold natToStrAux at h
    by_cases hn : n < 10
    · rw [if_pos hn] at h
      rw [List.mem_singleton] at h
      exact h ▸ decDigit_isDigit hn
    · rw [if_neg hn] at h
      rcases List.mem_append.mp h with h1 | h1
      · exact ih _ _ h1
      · rw [List.mem_singleton] at h1
        exact h1 ▸ decDigit_isDigit (Nat.mod_lt _ (by omega))

theorem mem_natToStr_isDigit {n : Nat} {c : Char} (h : c ∈ natToStr n) :
    isDigitCh c = true :=
  mem_natToStrAux_isDigit _ _ _ h

theorem mem_padStart2 {s : Str} {c : Char} (h : c ∈ padStart2 s) : c = '0' ∨ c ∈ s := by
  unfold padStart2 at h
  by_cases h2 : 2 ≤ s.length
  · rw [if_pos h2] at h; exact Or.inr h
  · rw [if_neg h2] at h
    rcases List.mem_append.mp h with h1 | h1
    · exact Or.inl (List.eq_of_mem_replicate h1)
    · exact Or.inr h1

theorem mem_append_cases {P : Char → Prop} {l1 l2 : Str}
    (h1 : ∀ c ∈ l1, P c) (h2 : ∀ c ∈ l2, P c) : ∀ c ∈ l1 ++ l2, P c := by
  intro c hc
  rcases List.mem_append.mp hc with h | h
  · exact h1 c h
  · exact h2 c h

theorem mem_getFormattedFileName (d : DateTime) :
    ∀ c ∈ getFormattedFileName d, isDigitCh c = true ∨ c ∈ str "- .0m4a" := by
  have hlitA : ∀ x ∈ str " 0.m4a", isDigitCh x = true ∨ x ∈ str "- .0m4a" := by decide
  have hlitB : ∀ x ∈ str "-", isDigitCh x = true ∨ x ∈ str "- .0m4a" := by decide
  have hlitC : ∀ x ∈ str " ", isDigitCh x = true ∨ x ∈ str "- .0m4a" := by decide
  have hnum : ∀ n : Nat, ∀ x ∈ natToStr n, isDigitCh x = true ∨ x ∈ str "- .0m4a" :=
    fun _ _ hx => Or.inl (mem_natToStr_isDigit hx)
  have hpad : ∀ n : Nat, ∀ x ∈ padStart2 (natToStr n),
      isDigitCh x = true ∨ x ∈ str "- .0m4a" := by
    intro n x hx
    rcases mem_padStart2 hx with h1 | h1
    · right; rw [h1]; decide
    · exact Or.inl (mem_natToStr_isDigit h1)
  unfold getFormattedFileName
  repeat
    apply mem_append_cases
  all_goals first
    | exact hnum _
    | exact hpad _
    | exact hlitA
    | exact hlitB
    | exact hlitC

theorem lChar_not_mem_formatted (d : DateTime) : 'l' ∉ getFormattedFileName d := by
  intro h
  rcases mem_getFormattedFileName d 'l' h with h1 | h1 <;> revert h1 <;> decide

theorem slash_not_mem_formatted (d : DateTime) : '/' ∉ getFormattedFileName d := by
  intro h
  rcases mem_getFormattedFileName d '/' h with h1 | h1 <;> revert h1 <;> decide

theorem formatted_suffix_tail (d : DateTime) : str " 0.m4a" <:+ getFormattedFileName d := by
  unfold getFormattedFileName
  repeat
    apply suffix_of_suffix_append
  exact List.suffix_refl _

theorem formatted_endsWith_m4a (d : DateTime) :
    jsEndsWith (getFormattedFileName d) (str ".m4a") = true := by
  unfold jsEndsWith
  rw [List.isSuffixOf_iff_suffix]
  exact (show str ".m4a" <:+ str " 0.m4a" by decide).trans (formatted_suffix_tail d)

theorem formatted_not_endsWith_lock (d : DateTime) :
    jsEndsWith (getFormattedFileName d) (str ".lock") = false := by
  unfold jsEndsWith
  rw [Bool.eq_false_iff]
  intro h
  rw [List.isSuffixOf_iff_suffix] at h
  exact lChar_not_mem_formatted d (h.subset (by decide))

theorem formatted_not_includes_lock (d : DateTime) :
    jsIncludes (getFormattedFileName d) (str "lock") = false := by
  unfold jsIncludes
  rw [decide_eq_false_iff_not]
  intro h
  exact lChar_not_mem_formatted d (h.subset (by decide))

theorem formatted_ne_lockname (d : DateTime) :
    ¬(getFormattedFileName d = str "recording.lock") := by
  intro h
  exact lChar_not_mem_formatted d (h ▸ (by decide : 'l' ∈ str "recording.lock"))

theorem formatted_ne_nil (d : DateTime) : ¬(getFormattedFileName d = []) := by
  intro h
  have h2 := formatted_suffix_tail d
  rw [h] at h2
  have := List.eq_nil_of_suffix_nil h2
  exact absurd this (by decide)

/-! ## Lemmas about `split('/')` and the SAF file-name recovery -/

theorem splitCh_ne_nil (sep : Char) (l : Str) : ¬(splitCh sep l = []) := by
  induction l with
  | nil => simp [splitCh]
  | cons c rest ih =>
    unfold splitCh
    cases h : splitCh sep rest with
    | nil => exact absurd h ih
    | cons s ss => by_cases hc : c = sep <;> simp [hc]

theorem splitCh_of_not_mem {sep : Char} {l : Str} (h : sep ∉ l) : splitCh sep l = [l] := by
  induction l with
  | nil => rfl
  | cons c rest ih =>
    have hc : ¬(c = sep) := fun hh => h (by rw [hh]; exact List.mem_cons_self _ _)
    have hr : sep ∉ rest := fun hh => h (List.mem_cons_of_mem _ hh)
    unfold splitCh
    rw [ih hr]
    simp [hc]

theorem two_le_splitCh_length {sep : Char} {l : Str} (h : sep ∈ l) :
    2 ≤ (splitCh sep l).length := by
  induction l with
  | nil => cases h
  | cons c rest ih =>
    unfold splitCh
    cases hr : splitCh sep rest with
    | nil => exact absurd hr (splitCh_ne_nil sep rest)
    | cons s ss =>
      by_cases hc : c = sep
      · simp [hc]
      · rcases List.mem_cons.mp h with h1 | h1
        · exact absurd h1.symm hc
        · have h2 := ih h1
          rw [hr] at h2
          simp only [List.length_cons] at h2 ⊢
          rw [if_neg hc]
          simp only [List.length_cons]
          omega

theorem getLastD_irrel {α : Type} {l : List α} (h : ¬(l = [])) (d1 d2 : α) :
    l.getLastD d1 = l.getLastD d2 := by
  cases l with
  | nil => exact absurd rfl h
  | cons a t => rfl

theorem getLastD_splitCh {n : Str} (hn : ('/' : Char) ∉ n) :
    ∀ (pre x : Str), (splitCh '/' (pre ++ '/' :: n)).getLastD x = n := by
  intro pre
  induction pre with
  | nil =>
    intro x
    show (splitCh '/' ('/' :: n)).getLastD x = n
    unfold splitCh
    rw [splitCh_of_not_mem hn]
    simp
  | cons c pre ih =>
    intro x
    have hmem : ('/' : Char) ∈ pre ++ '/' :: n := by simp
    have h2 := two_le_splitCh_length hmem
    show (splitCh '/' (c :: (pre ++ '/' :: n))).getLastD x = n
    unfold splitCh
    cases hr : splitCh '/' (pre ++ '/' :: n) with
    | nil => exact absurd hr (splitCh_ne_nil _ _)
    | cons s ss =>
      have hss : ¬(ss = []) := by
        rw [hr] at h2
        simp only [List.length_cons] at h2
        intro hcon
        rw [hcon] at h2
        simp at h2
      have ihr : (s :: ss).getLastD x = n := by rw [← hr]; exact ih x
      rw [List.getLastD_cons] at ihr
      dsimp only
      by_cases hc : c = '/'
      · rw [if_pos hc, List.getLastD_cons, List.getLastD_cons]
        exact ihr
      · rw [if_neg hc, List.getLastD_cons]
        rw [getLastD_irrel hss (c :: s) s]
        exact ihr

theorem safFileName_eq {loc m : Str} (h1 : ('/' : Char) ∉ m) (h2 : ¬(m = [])) :
    jsOr ((splitCh '/' (loc ++ str "/" ++ m)).getLastD []) (loc ++ str "/" ++ m) = m := by
  have hsh : loc ++ str "/" ++ m = loc ++ '/' :: m := by
    rw [show str "/" = ['/'] from by decide, List.append_assoc]
    rfl
  rw [hsh, getLastD_splitCh h1 loc []]
  unfold jsOr
  rw [if_neg h2]

theorem splitCh_mem_no_sep {sep : Char} : ∀ {l : Str}, ∀ s ∈ splitCh sep l, sep ∉ s := by
  intro l
  induction l with
  | nil =>
    intro s hs
    simp [splitCh] at hs
    subst hs
    exact List.not_mem_nil sep
  | cons c rest ih =>
    intro s hs
    unfold splitCh at hs
    cases hr : splitCh sep rest with
    | nil => exact absurd hr (splitCh_ne_nil sep rest)
    | cons x xs =>
      rw [hr] at hs
      dsimp only at hs
      by_cases hc : c = sep
      · rw [if_pos hc] at hs
        rcases List.mem_cons.mp hs with h1 | h1
        · subst h1; exact List.not_mem_nil sep
        · exact ih s (hr ▸ h1)
      · rw [if_neg hc] at hs
        rcases List.mem_cons.mp hs with h1 | h1
        · subst h1
          intro hmem
          rcases List.mem_cons.mp hmem with h2 | h2
          · exact hc h2.symm
          · exact ih x (hr ▸ List.mem_cons_self x xs) h2
        · exact ih s (hr ▸ List.mem_cons_of_mem x h1)

theorem getLastD_mem {α : Type} : ∀ {l : List α}, ¬(l = []) → ∀ d, l.getLastD d ∈ l := by
  intro l
  induction l with
  | nil => intro h; exact absurd rfl h
  | cons a t ih =>
    intro _ d
    rw [List.getLastD_cons]
    cases ht : t with
    | nil => subst ht; exact List.mem_singleton.mpr rfl
    | cons b ts =>
      subst ht
      exact List.mem_cons_of_mem a (ih (by simp) a)

theorem lastSeg_no_slash (loc : Str) : ('/' : Char) ∉ (splitCh '/' loc).getLastD [] :=
  splitCh_mem_no_sep _ (getLastD_mem (splitCh_ne_nil '/' loc) [])

theorem percent_not_mem_formatted (d : DateTime) : '%' ∉ getFormattedFileName d := by
  intro h
  rcases mem_getFormattedFileName d '%' h with h1 | h1 <;> revert h1 <;> decide

theorem safDocId_ne_nil (loc n : Str) : ¬(safDocId loc n = []) := by
  unfold safDocId
  intro h
  rw [List.append_assoc, List.append_eq_nil] at h
  have h2 := h.2
  rw [List.append_eq_nil] at h2
  exact absurd h2.1 (by decide)

theorem slash_not_mem_safDocId {n : Str} (loc : Str) (h : ('/' : Char) ∉ n) :
    ('/' : Char) ∉ safDocId loc n := by
  unfold safDocId
  intro hm
  rw [List.append_assoc, List.mem_append, List.mem_append] at hm
  rcases hm with h1 | h1 | h1
  · exact lastSeg_no_slash loc h1
  · exact absurd h1 (by decide)
  · exact h h1

theorem safEntryUri_decompose (loc n : Str) :
    safEntryUri loc n = (loc ++ str "/document") ++ '/' :: safDocId loc n := by
  unfold safEntryUri
  rw [show str "/document/" = str "/document" ++ ['/'] from by decide]
  rw [List.append_assoc, List.append_assoc]
  simp

theorem safEntryUri_pop {n : Str} (loc : Str) (h : ('/' : Char) ∉ n) :
    (splitCh '/' (safEntryUri loc n)).getLastD [] = safDocId loc n := by
  rw [safEntryUri_decompose]
  exact getLastD_splitCh (slash_not_mem_safDocId loc h) _ []

theorem slash_mem_safEntryUri (loc n : Str) : ('/' : Char) ∈ safEntryUri loc n := by
  rw [safEntryUri_decompose]
  exact List.mem_append.mpr (Or.inr (List.mem_cons_self _ _))

theorem safDocId_inj {loc m n : Str} (h : safDocId loc m = safDocId loc n) : m = n := by
  unfold safDocId at h
  rw [List.append_assoc, List.append_assoc] at h
  have h2 := List.append_cancel_left h
  exact List.append_cancel_left h2

theorem safDocId_ne_formatted (loc m : Str) (d : DateTime) :
    ¬(safDocId loc m = getFormattedFileName d) := by
  intro h
  apply percent_not_mem_formatted d
  rw [← h]
  unfold safDocId
  rw [List.append_assoc, List.mem_append]
  exact Or.inr (List.mem_append.mpr (Or.inl (by decide)))

theorem safEntryUri_ne_formatted (loc m : Str) (d : DateTime) :
    ¬(safEntryUri loc m = getFormattedFileName d) := by
  intro h
  exact slash_not_mem_formatted d (h ▸ slash_mem_safEntryUri loc m)

theorem safDocId_endsWith_m4a (loc : Str) {n : Str}
    (h : jsEndsWith n (str ".m4a") = true) :
    jsEndsWith (safDocId loc n) (str ".m4a") = true := by
  unfold jsEndsWith at h ⊢
  rw [List.isSuffixOf_iff_suffix] at h ⊢
  unfold safDocId
  rw [List.append_assoc]
  exact (h.trans (List.suffix_append _ _)).trans (List.suffix_append _ _)

/-! ## Sorting is a permutation; counting through the listing pipeline -/

theorem insertLe_perm (le : α → α → Bool) (x : α) (l : List α) :
    (insertLe le x l).Perm (x :: l) := by
  induction l with
  | nil => exact List.Perm.refl _
  | cons y ys ih =>
    unfold insertLe
    by_cases h : le x y = true
    · rw [if_pos h]
    · rw [if_neg h]
      exact (ih.cons y).trans (List.Perm.swap x y ys)

theorem sortByLe_perm (le : α → α → Bool) (l : List α) : (sortByLe le l).Perm l := by
  induction l with
  | nil => exact List.Perm.refl _
  | cons x xs ih =>
    exact (insertLe_perm le x (sortByLe le xs)).trans (ih.cons x)

theorem countP_sortByLe (le : α → α → Bool) (p : α → Bool) (l : List α) :
    (sortByLe le l).countP p = l.countP p :=
  (sortByLe_perm le l).countP_eq p

theorem countP_filterMap (p : β → Bool) (f : α → Option β) (l : List α) :
    (l.filterMap f).countP p = l.countP (fun a => optTest p (f a)) := by
  induction l with
  | nil => rfl
  | cons a l ih =>
    cases hfa : f a with
    | none => simp [List.filterMap_cons, hfa, List.countP_cons, ih, optTest]
    | some b => simp [List.filterMap_cons, hfa, List.countP_cons, ih, optTest]

/-! ## Claim theorems -/

/-- C10: after `resetToDefault()` the persisted `saveLocation` key is
present and equal to the document-directory path (written, not removed);
every subsequent resolution returns exactly what it returns when the key
is absent, the stored value is not classified as `content://`, and file
operations route through the plain path-based API. -/
theorem c10_reset_to_default_plain (kv : Option Str) (docDir : Str)
    (hne : ¬(docDir = []))
    (hplain : jsStartsWith docDir (str "content://") = false) :
    (resetToDefault kv docDir).1 = some docDir ∧
    loadSaveLocation ((resetToDefault kv docDir).1) docDir = docDir ∧
    loadSaveLocation ((resetToDefault kv docDir).1) docDir =
      loadSaveLocation none docDir ∧
    jsStartsWith (loadSaveLocation ((resetToDefault kv docDir).1) docDir)
      (str "content://") = false ∧
    apiForLocation (loadSaveLocation ((resetToDefault kv docDir).1) docDir) =
      StorageApi.plain := by
  refine ⟨rfl, ?_, ?_, ?_, ?_⟩ <;>
    simp [resetToDefault, loadSaveLocation, apiForLocation, hne, hplain]

theorem c10_reset_to_default_plain_witness :
    ¬((str "file:///data/user/0/app/files/") = []) ∧
    jsStartsWith (str "file:///data/user/0/app/files/") (str "content://") = false ∧
    ((resetToDefault none (str "file:///data/user/0/app/files/")).1 =
        some (str "file:///data/user/0/app/files/") ∧
      loadSaveLocation ((resetToDefault none (str "file:///data/user/0/app/files/")).1)
          (str "file:///data/user/0/app/files/") = str "file:///data/user/0/app/files/" ∧
      loadSaveLocation ((resetToDefault none (str "file:///data/user/0/app/files/")).1)
          (str "file:///data/user/0/app/files/") =
        loadSaveLocation none (str "file:///data/user/0/app/files/") ∧
      jsStartsWith
          (loadSaveLocation ((resetToDefault none (str "file:///data/user/0/app/files/")).1)
            (str "file:///data/user/0/app/files/")) (str "content://") = false ∧
      apiForLocation
          (loadSaveLocation ((resetToDefault none (str "file:///data/user/0/app/files/")).1)
            (str "file:///data/user/0/app/files/")) = StorageApi.plain) :=
  ⟨by decide, by decide,
    c10_reset_to_default_plain none (str "file:///data/user/0/app/files/")
      (by decide) (by decide)⟩

/-- C4: if `x` is not already the current recording, `play(x)` starts it;
a second `play(x)` with no intervening call unloads the sound and clears
both the loaded-sound handle and the currently-playing marker instead of
restarting playback (toggle semantics), whatever the outcome of a
(never-reached) sound creation would be. -/
theorem c4_play_toggle (st : PlaybackState) (w : AudioWorld) (uri : Str) (ok2 : Bool)
    (h : ¬(st.playingUri = some uri)) :
    (playRecording st w uri true).1.playingUri = some uri ∧
    (playRecording (playRecording st w uri true).1 (playRecording st w uri true).2
        uri ok2).1.playingSound = none ∧
    (playRecording (playRecording st w uri true).1 (playRecording st w uri true).2
        uri ok2).1.playingUri = none ∧
    (∀ sid, (playRecording st w uri true).1.playingSound = some sid →
      sid ∉ (playRecording (playRecording st w uri true).1
        (playRecording st w uri true).2 uri ok2).2.loaded) := by
  cases hps : st.playingSound with
  | none =>
    simp [playRecording, hps, h, soundCreateAsync, unloadAsync, List.mem_filter]
  | some s =>
    simp [playRecording, hps, h, soundCreateAsync, unloadAsync, List.mem_filter]

theorem c4_play_toggle_witness :
    ¬((⟨none, none⟩ : PlaybackState).playingUri = some (str "file:///r/a.m4a")) ∧
    ((playRecording ⟨none, none⟩ ⟨[], 0⟩ (str "file:///r/a.m4a") true).1.playingUri =
        some (str "file:///r/a.m4a") ∧
      (playRecording (playRecording ⟨none, none⟩ ⟨[], 0⟩ (str "file:///r/a.m4a") true).1
          (playRecording ⟨none, none⟩ ⟨[], 0⟩ (str "file:///r/a.m4a") true).2
          (str "file:///r/a.m4a") true).1.playingSound = none ∧
      (playRecording (playRecording ⟨none, none⟩ ⟨[], 0⟩ (str "file:///r/a.m4a") true).1
          (playRecording ⟨none, none⟩ ⟨[], 0⟩ (str "file:///r/a.m4a") true).2
          (str "file:///r/a.m4a") true).1.playingUri = none ∧
      (∀ sid, (playRecording ⟨none, none⟩ ⟨[], 0⟩ (str "file:///r/a.m4a") true).1.playingSound =
          some sid →
        sid ∉ (playRecording (playRecording ⟨none, none⟩ ⟨[], 0⟩ (str "file:///r/a.m4a") true).1
          (playRecording ⟨none, none⟩ ⟨[], 0⟩ (str "file:///r/a.m4a") true).2
          (str "file:///r/a.m4a") true).2.loaded)) :=
  ⟨by decide, c4_play_toggle ⟨none, none⟩ ⟨[], 0⟩ (str "file:///r/a.m4a") true (by decide)⟩

/-- C2 counterexample: in `src/app/(tabs)/recordings.tsx`, a failed SAF
listing of a scoped location leaves the persisted `saveLocation` key in
place (still the invalid `content://` value) and leaves the component
location state untouched — the claimed clear-and-fall-back does not
happen at this listing call site. -/
theorem c2_saf_failure_not_cleared_v1 :
    (loadRecordings_v1 (str "content://tree/music") (str "content://tree/music")
        (str "file:///data/") (some (str "content://tree/music")) [] false true 0).2.1 =
      some (str "content://tree/music") ∧
    (loadRecordings_v1 (str "content://tree/music") (str "content://tree/music")
        (str "file:///data/") (some (str "content://tree/music")) [] false true 0).2.2 =
      str "content://tree/music" ∧
    (loadRecordings_v2 (str "content://tree/music") (str "content://tree/music")
        (str "file:///data/") (some (str "content://tree/music")) [] false true 0).2.1 =
      none := by decide

/-- C2 amended: when a scoped listing fails, only the `part_002`
implementation clears the persisted identifier and falls back to the
document directory (showing an empty list, with no retry); the
`recordings.tsx` implementation shows an empty list but leaves both the
persisted key and the component state unchanged. -/
theorem c2_saf_failure_fallback (locationToUse stateLoc docDir : Str) (kv : Option Str)
    (dir : Dir) (plainOk : Bool) (nowMs nowSec : Nat)
    (hscoped : jsStartsWith (jsOr locationToUse (jsOr stateLoc (jsOr docDir [])))
        (str "content://") = true) :
    loadRecordings_v2 locationToUse stateLoc docDir kv dir false plainOk nowSec =
      ([], none, jsOr docDir []) ∧
    loadRecordings_v1 locationToUse stateLoc docDir kv dir false plainOk nowMs =
      ([], kv, stateLoc) := by
  constructor <;> simp [loadRecordings_v2, loadRecordings_v1, hscoped]

theorem c2_saf_failure_fallback_witness :
    jsStartsWith (jsOr (str "content://tree/m") (jsOr [] (jsOr (str "file:///d/") [])))
      (str "content://") = true ∧
    (loadRecordings_v2 (str "content://tree/m") [] (str "file:///d/") (some (str "content://tree/m"))
        [] false true 7 = ([], none, jsOr (str "file:///d/") []) ∧
      loadRecordings_v1 (str "content://tree/m") [] (str "file:///d/") (some (str "content://tree/m"))
        [] false true 7 = ([], some (str "content://tree/m"), [])) :=
  ⟨by decide,
    c2_saf_failure_fallback (str "content://tree/m") [] (str "file:///d/")
      (some (str "content://tree/m")) [] true 7 7 (by decide)⟩

/-- C6 counterexample: the `recordings.tsx` delete handler issues the
plain `FileSystem.deleteAsync` call even for a `content://` reference, so
the scoped entry survives, while the `part_002` handler dispatches to the
SAF deletion and removes it. -/
theorem c6_plain_delete_on_scoped_uri :
    deleteRecording_v1 ⟨[str "content://tree/doc/a.m4a"], []⟩
        (str "content://tree/doc/a.m4a") =
      (⟨[str "content://tree/doc/a.m4a"], []⟩ : FileWorld) ∧
    jsStartsWith (str "content://tree/doc/a.m4a") (str "content://") = true ∧
    deleteRecording_v2 ⟨[str "content://tree/doc/a.m4a"], []⟩
        (str "content://tree/doc/a.m4a") = (⟨[], []⟩ : FileWorld) := by decide

/-- C6 amended: only the `part_002` delete dispatches on the reference's
URI scheme (SAF deletion for `content://`, plain deletion otherwise); the
`recordings.tsx` and `part_001` delete handlers always issue the plain
file-system deletion, which never touches SAF-owned entries. -/
theorem c6_delete_dispatch (w : FileWorld) (uri : Str) :
    (jsStartsWith uri (str "content://") = true →
      (deleteRecording_v2 w uri).plainFiles = w.plainFiles ∧
      uri ∉ (deleteRecording_v2 w uri).safFiles) ∧
    (jsStartsWith uri (str "content://") = false →
      (deleteRecording_v2 w uri).safFiles = w.safFiles ∧
      uri ∉ (deleteRecording_v2 w uri).plainFiles) ∧
    (deleteRecording_v1 w uri).safFiles = w.safFiles ∧
    (deleteRecording_v0 w uri).safFiles = w.safFiles := by
  refine ⟨fun h => ?_, fun h => ?_, rfl, rfl⟩
  · simp [deleteRecording_v2, h, safDeleteAsync, fsDeleteAsync, List.mem_filter]
  · simp [deleteRecording_v2, h, safDeleteAsync, fsDeleteAsync, List.mem_filter]

theorem c6_delete_dispatch_witness :
    jsStartsWith (str "content://tree/doc/b.m4a") (str "content://") = true ∧
    ((deleteRecording_v2 ⟨[str "content://tree/doc/b.m4a"], [str "file:///d/x.m4a"]⟩
        (str "content://tree/doc/b.m4a")).plainFiles = [str "file:///d/x.m4a"] ∧
      str "content://tree/doc/b.m4a" ∉
        (deleteRecording_v2 ⟨[str "content://tree/doc/b.m4a"], [str "file:///d/x.m4a"]⟩
          (str "content://tree/doc/b.m4a")).safFiles) :=
  ⟨by decide,
    (c6_delete_dispatch ⟨[str "content://tree/doc/b.m4a"], [str "file:///d/x.m4a"]⟩
      (str "content://tree/doc/b.m4a")).1 (by decide)⟩

/-- C8: the two listing call sites sort differently — `recordings.tsx`
returns newest first (by modification time descending), `part_002`
returns alphabetical by name — so on this directory the two listings hold
the same artifacts in different orders. -/
theorem c8_sort_orders_differ :
    ((loadRecordings_v1 [] (str "file:///data/") (str "file:///data/") none demoDirC8
        true true 0).1.map (fun r => r.name)) =
      [str "2025-01-02 11-00-00 0.m4a", str "2025-01-01 10-00-00 0.m4a"] ∧
    ((loadRecordings_v2 [] (str "file:///data/") (str "file:///data/") none demoDirC8
        true true 0).1.map (fun r => r.name)) =
      [str "2025-01-01 10-00-00 0.m4a", str "2025-01-02 11-00-00 0.m4a"] ∧
    ((loadRecordings_v1 [] (str "file:///data/") (str "file:///data/") none demoDirC8
        true true 0).1.map (fun r => r.name)).Perm
      ((loadRecordings_v2 [] (str "file:///data/") (str "file:///data/") none demoDirC8
        true true 0).1.map (fun r => r.name)) ∧
    ¬(((loadRecordings_v1 [] (str "file:///data/") (str "file:///data/") none demoDirC8
        true true 0).1.map (fun r => r.name)) =
      ((loadRecordings_v2 [] (str "file:///data/") (str "file:///data/") none demoDirC8
        true true 0).1.map (fun r => r.name))) := by decide

/-- C1 counterexample: a full start/stop run saving to a scoped
(`content://`) location ends with the lock marker still present in the
location (`removeLockFile` deliberately skips SAF deletion), so stopping
did not remove the marker there. -/
theorem c1_scoped_run_leaves_marker :
    lockCount
      (stopRecording
        (startRecording (initialRecorderState (str "content://tree/rec")) []
          (str "file:///data/") true true true (str "file:///tmp/raw.m4a") 10).1
        (startRecording (initialRecorderState (str "content://tree/rec")) []
          (str "file:///data/") true true true (str "file:///tmp/raw.m4a") 10).2
        (str "file:///data/") ⟨2025, 3, 9, 14, 30, 5, 250⟩ (str "BYTES") true 20).2 = 1 := by
  decide

theorem locksOf_write_lockfile {dir : Dir} (t : Nat) (hlocks : locksOf dir = []) :
    locksOf (dirWrite dir (str "recording.lock") (str "RECORDING_IN_PROGRESS") t) =
      [str "recording.lock"] := by
  rw [locksOf_dirWrite, hlocks,
    show jsEndsWith (str "recording.lock") (str ".lock") = true from by decide]
  simp

theorem locksOf_write_artifact {dir : Dir} (now : DateTime) (c : Str) (t : Nat)
    (h : locksOf dir = [str "recording.lock"]) :
    locksOf (dirWrite dir (getFormattedFileName now) c t) = [str "recording.lock"] := by
  have hne : ¬(str "recording.lock" = getFormattedFileName now) :=
    fun hh => formatted_ne_lockname now hh.symm
  rw [locksOf_dirWrite, h, formatted_not_endsWith_lock]
  simp [hne]

theorem locksOf_erase_lockfile {dir : Dir} (h : locksOf dir = [str "recording.lock"]) :
    locksOf (dirErase dir (str "recording.lock")) = [] := by
  rw [locksOf_dirErase, h]
  simp

/-- C1 amended: with a marker-free location, starting a recording (with
the marker write succeeding) leaves exactly one LockMarker —
`recording.lock` — in the location before capture begins; stopping
removes it when the location is a plain path, but for a scoped
(`content://`) location the marker file is left behind (only the
in-memory marker name is cleared), whether or not the save succeeded. -/
theorem c1_lock_marker_lifecycle (saveLoc docDir tempUri content : Str) (dir : Dir)
    (now : DateTime) (saveOk : Bool) (t1 t2 : Nat)
    (st1 st2 : RecorderState) (dir1 dir2 : Dir)
    (hlocks : locksOf dir = [])
    (h1 : startRecording (initialRecorderState saveLoc) dir docDir true true true
        tempUri t1 = (st1, dir1))
    (h2 : stopRecording st1 dir1 docDir now content saveOk t2 = (st2, dir2)) :
    locksOf dir1 = [str "recording.lock"] ∧
    (scopedTarget (resolveTarget saveLoc docDir) = false → locksOf dir2 = []) ∧
    (scopedTarget (resolveTarget saveLoc docDir) = true →
      locksOf dir2 = [str "recording.lock"]) ∧
    st2.lockFileName = [] := by
  have hlockne : ¬(str "recording.lock" = ([] : Str)) := by decide
  by_cases hsc : scopedTarget (resolveTarget saveLoc docDir) = true
  · have hnm := lockname_not_mem_of_locksOf_nil hlocks
    have hstart : startRecording (initialRecorderState saveLoc) dir docDir true true true
        tempUri t1 =
        ({ isRecording := true, recordTime := str "00:00", recording := some tempUri,
            lockFileName := str "recording.lock", saveLocation := saveLoc },
          (⟨str "recording.lock", str "RECORDING_IN_PROGRESS", t1⟩ : DirEntry) :: dir) := by
      unfold startRecording createLockFile initialRecorderState safCreateFileAsync
      simp [hsc, safDocName_of_not_mem hnm]
    rw [hstart] at h1
    have est : st1 =
        { isRecording := true, recordTime := str "00:00", recording := some tempUri,
          lockFileName := str "recording.lock", saveLocation := saveLoc } :=
      (Prod.mk.inj h1).1.symm
    have edir : dir1 =
        (⟨str "recording.lock", str "RECORDING_IN_PROGRESS", t1⟩ : DirEntry) :: dir :=
      (Prod.mk.inj h1).2.symm
    subst est
    subst edir
    have hd1 : locksOf ((⟨str "recording.lock", str "RECORDING_IN_PROGRESS", t1⟩ : DirEntry)
        :: dir) = [str "recording.lock"] :=
      locksOf_cons_lockfile (str "RECORDING_IN_PROGRESS") t1 hlocks
    have hstop : stopRecording
        { isRecording := true, recordTime := str "00:00", recording := some tempUri,
          lockFileName := str "recording.lock", saveLocation := saveLoc }
        ((⟨str "recording.lock", str "RECORDING_IN_PROGRESS", t1⟩ : DirEntry) :: dir)
        docDir now content saveOk t2 =
        ({ isRecording := false, recordTime := str "00:00", recording := none,
            lockFileName := [], saveLocation := saveLoc },
          if saveOk then
            (⟨safDocName ((⟨str "recording.lock", str "RECORDING_IN_PROGRESS", t1⟩ : DirEntry)
                  :: dir) (getFormattedFileName now), content, t2⟩ : DirEntry) ::
              (⟨str "recording.lock", str "RECORDING_IN_PROGRESS", t1⟩ : DirEntry) :: dir
          else (⟨str "recording.lock", str "RECORDING_IN_PROGRESS", t1⟩ : DirEntry) :: dir) := by
      unfold stopRecording removeLockFile safCreateFileAsync
      by_cases hsv : saveOk = true <;> simp [hsc, hsv, hlockne]
    rw [hstop] at h2
    have est2 := (Prod.mk.inj h2).1.symm
    have edir2 := (Prod.mk.inj h2).2.symm
    refine ⟨hd1, fun hco => absurd hsc (by simp [hco]), fun _ => ?_, ?_⟩
    · rw [edir2]
      by_cases hsv : saveOk = true
      · rw [if_pos hsv,
          locksOf_cons_artifact _ content t2
            (safDocName_not_lock (formatted_not_endsWith_lock now))]
        exact hd1
      · rw [if_neg hsv]
        exact hd1
    · rw [est2]
  · rw [Bool.not_eq_true] at hsc
    have hstart : startRecording (initialRecorderState saveLoc) dir docDir true true true
        tempUri t1 =
        ({ isRecording := true, recordTime := str "00:00", recording := some tempUri,
            lockFileName := str "recording.lock", saveLocation := saveLoc },
          dirWrite dir (str "recording.lock") (str "RECORDING_IN_PROGRESS") t1) := by
      unfold startRecording createLockFile initialRecorderState
      simp [hsc]
    rw [hstart] at h1
    have est : st1 =
        { isRecording := true, recordTime := str "00:00", recording := some tempUri,
          lockFileName := str "recording.lock", saveLocation := saveLoc } :=
      (Prod.mk.inj h1).1.symm
    have edir : dir1 = dirWrite dir (str "recording.lock") (str "RECORDING_IN_PROGRESS") t1 :=
      (Prod.mk.inj h1).2.symm
    subst est
    subst edir
    have hd1 := locksOf_write_lockfile t1 hlocks
    have hstop : stopRecording
        { isRecording := true, recordTime := str "00:00", recording := some tempUri,
          lockFileName := str "recording.lock", saveLocation := saveLoc }
        (dirWrite dir (str "recording.lock") (str "RECORDING_IN_PROGRESS") t1)
        docDir now content saveOk t2 =
        ({ isRecording := false, recordTime := str "00:00", recording := none,
            lockFileName := [], saveLocation := saveLoc },
          dirErase
            (if saveOk then
              dirWrite (dirWrite dir (str "recording.lock") (str "RECORDING_IN_PROGRESS") t1)
                (getFormattedFileName now) content t2
            else dirWrite dir (str "recording.lock") (str "RECORDING_IN_PROGRESS") t1)
            (str "recording.lock")) := by
      unfold stopRecording removeLockFile
      by_cases hsv : saveOk = true <;> simp [hsc, hsv, hlockne]
    rw [hstop] at h2
    have est2 := (Prod.mk.inj h2).1.symm
    have edir2 := (Prod.mk.inj h2).2.symm
    refine ⟨hd1, fun _ => ?_, fun hco => ?_, ?_⟩
    · rw [edir2]
      by_cases hsv : saveOk = true
      · rw [if_pos hsv]
        exact locksOf_erase_lockfile (locksOf_write_artifact now content t2 hd1)
      · rw [if_neg hsv]
        exact locksOf_erase_lockfile hd1
    · rw [hsc] at hco
      exact absurd hco (by decide)
    · rw [est2]

theorem c1_lock_marker_lifecycle_witness :
    locksOf ([] : Dir) = [] ∧
    (locksOf (startRecording (initialRecorderState (str "content://tree/rec")) []
        (str "file:///data/") true true true (str "file:///tmp/raw.m4a") 10).2 =
        [str "recording.lock"] ∧
      (scopedTarget (resolveTarget (str "content://tree/rec") (str "file:///data/")) = false →
        locksOf (stopRecording (startRecording (initialRecorderState (str "content://tree/rec")) []
        (str "file:///data/") true true true (str "file:///tmp/raw.m4a") 10).1
        (startRecording (initialRecorderState (str "content://tree/rec")) []
        (str "file:///data/") true true true (str "file:///tmp/raw.m4a") 10).2
        (str "file:///data/") (DateTime.mk 2025 3 9 14 30 5 250) (str "BYTES") true 20).2 = []) ∧
      (scopedTarget (resolveTarget (str "content://tree/rec") (str "file:///data/")) = true →
        locksOf (stopRecording (startRecording (initialRecorderState (str "content://tree/rec")) []
        (str "file:///data/") true true true (str "file:///tmp/raw.m4a") 10).1
        (startRecording (initialRecorderState (str "content://tree/rec")) []
        (str "file:///data/") true true true (str "file:///tmp/raw.m4a") 10).2
        (str "file:///data/") (DateTime.mk 2025 3 9 14 30 5 250) (str "BYTES") true 20).2 =
          [str "recording.lock"]) ∧
      (stopRecording (startRecording (initialRecorderState (str "content://tree/rec")) []
        (str "file:///data/") true true true (str "file:///tmp/raw.m4a") 10).1
        (startRecording (initialRecorderState (str "content://tree/rec")) []
        (str "file:///data/") true true true (str "file:///tmp/raw.m4a") 10).2
        (str "file:///data/") (DateTime.mk 2025 3 9 14 30 5 250) (str "BYTES") true 20).1.lockFileName = []) :=
  ⟨rfl,
    c1_lock_marker_lifecycle (str "content://tree/rec") (str "file:///data/")
      (str "file:///tmp/raw.m4a") (str "BYTES") [] (DateTime.mk 2025 3 9 14 30 5 250) true 10 20
      (startRecording (initialRecorderState (str "content://tree/rec")) []
        (str "file:///data/") true true true (str "file:///tmp/raw.m4a") 10).1
      (stopRecording (startRecording (initialRecorderState (str "content://tree/rec")) []
        (str "file:///data/") true true true (str "file:///tmp/raw.m4a") 10).1
        (startRecording (initialRecorderState (str "content://tree/rec")) []
        (str "file:///data/") true true true (str "file:///tmp/raw.m4a") 10).2
        (str "file:///data/") (DateTime.mk 2025 3 9 14 30 5 250) (str "BYTES") true 20).1
      (startRecording (initialRecorderState (str "content://tree/rec")) []
        (str "file:///data/") true true true (str "file:///tmp/raw.m4a") 10).2
      (stopRecording (startRecording (initialRecorderState (str "content://tree/rec")) []
        (str "file:///data/") true true true (str "file:///tmp/raw.m4a") 10).1
        (startRecording (initialRecorderState (str "content://tree/rec")) []
        (str "file:///data/") true true true (str "file:///tmp/raw.m4a") 10).2
        (str "file:///data/") (DateTime.mk 2025 3 9 14 30 5 250) (str "BYTES") true 20).2
      rfl rfl rfl⟩

/-- C5 counterexample: stopping a recording whose resolved location is
scoped (`content://`) runs the lock-removal step, yet the marker file is
still in the location afterwards (here with a failing save, which is
reported but does not block the return to idle). -/
theorem c5_scoped_stop_leaves_marker :
    str "recording.lock" ∈ dirNames
      (stopRecording
        ⟨true, str "00:07", some (str "file:///tmp/raw2.m4a"), str "recording.lock",
          str "content://music"⟩
        [⟨str "recording.lock", str "RECORDING_IN_PROGRESS", 5⟩]
        (str "file:///data/") ⟨2026, 1, 2, 3, 4, 5, 6⟩ (str "PAYLOAD") false 9).2 := by
  decide

/-- C5 amended: whenever a recording exists, `stop()` ends capture,
attempts the save, runs the lock-removal step and returns to idle
(recording cleared, `isRecording` false, timer reset, marker name
cleared) for every save outcome; a successful save leaves the artifact's
bytes in the resolved location; the marker file itself is deleted only
for plain-path locations — at a scoped location it remains. -/
theorem c5_stop_returns_idle (st : RecorderState) (dir : Dir) (docDir : Str)
    (now : DateTime) (content : Str) (saveOk : Bool) (t : Nat) (u : Str)
    (st2 : RecorderState) (dir2 : Dir)
    (hrec : st.recording = some u)
    (hlock : st.lockFileName = str "recording.lock")
    (h2 : stopRecording st dir docDir now content saveOk t = (st2, dir2)) :
    st2.isRecording = false ∧ st2.recording = none ∧
    st2.recordTime = str "00:00" ∧ st2.lockFileName = [] ∧
    st2.saveLocation = st.saveLocation ∧
    (saveOk = true → scopedTarget (resolveTarget st.saveLocation docDir) = false →
      dirGet dir2 (getFormattedFileName now) = some content) ∧
    (saveOk = true → scopedTarget (resolveTarget st.saveLocation docDir) = true →
      dirGet dir2 (safDocName dir (getFormattedFileName now)) = some content) ∧
    (scopedTarget (resolveTarget st.saveLocation docDir) = false →
      str "recording.lock" ∉ dirNames dir2) ∧
    (scopedTarget (resolveTarget st.saveLocation docDir) = true →
      str "recording.lock" ∈ dirNames dir →
      str "recording.lock" ∈ dirNames dir2) := by
  have hlockne : ¬(str "recording.lock" = ([] : Str)) := by decide
  have hnefmt : ¬(str "recording.lock" = getFormattedFileName now) :=
    fun hh => formatted_ne_lockname now hh.symm
  by_cases hsc : scopedTarget (resolveTarget st.saveLocation docDir) = true
  · have hstop : stopRecording st dir docDir now content saveOk t =
        ({ st with isRecording := false, recordTime := str "00:00", recording := none, lockFileName := [] },
          if saveOk then
            (⟨safDocName dir (getFormattedFileName now), content, t⟩ : DirEntry) :: dir
          else dir) := by
      unfold stopRecording removeLockFile safCreateFileAsync
      rw [hrec]
      by_cases hsv : saveOk = true <;> simp [hsc, hsv, hlock, hlockne]
    rw [hstop] at h2
    have est2 := (Prod.mk.inj h2).1.symm
    have edir2 := (Prod.mk.inj h2).2.symm
    subst est2
    subst edir2
    refine ⟨rfl, rfl, rfl, rfl, rfl, fun _ hco => absurd hsc (by simp [hco]),
      fun hsv _ => ?_, fun hco => absurd hsc (by simp [hco]), fun _ hmem => ?_⟩
    · rw [if_pos hsv]
      exact dirGet_cons_self dir (safDocName dir (getFormattedFileName now)) content t
    · by_cases hsv : saveOk = true
      · rw [if_pos hsv]
        exact List.mem_cons_of_mem _ hmem
      · rw [if_neg hsv]
        exact hmem
  · have hstop : stopRecording st dir docDir now content saveOk t =
        ({ st with isRecording := false, recordTime := str "00:00", recording := none, lockFileName := [] },
          dirErase
            (if saveOk then dirWrite dir (getFormattedFileName now) content t else dir)
            (str "recording.lock")) := by
      unfold stopRecording removeLockFile
      rw [hrec]
      by_cases hsv : saveOk = true <;> simp [hsc, hsv, hlock, hlockne]
    rw [hstop] at h2
    have est2 := (Prod.mk.inj h2).1.symm
    have edir2 := (Prod.mk.inj h2).2.symm
    subst est2
    subst edir2
    refine ⟨rfl, rfl, rfl, rfl, rfl, fun hsv _ => ?_, fun _ hco => absurd hco hsc,
      fun _ => ?_, fun hco => absurd hco hsc⟩
    · rw [if_pos hsv]
      rw [dirGet_dirErase_ne (fun hh => hnefmt hh.symm)]
      exact dirGet_dirWrite_self dir (getFormattedFileName now) content t
    · intro hmem
      exact (mem_dirNames_dirErase.mp hmem).2 rfl

theorem c5_stop_returns_idle_witness :
    ((⟨true, str "00:03", some (str "file:///tmp/r.m4a"), str "recording.lock", str "file:///data/"⟩ : RecorderState)).recording = some (str "file:///tmp/r.m4a") ∧
    ((⟨true, str "00:03", some (str "file:///tmp/r.m4a"), str "recording.lock", str "file:///data/"⟩ : RecorderState)).lockFileName = str "recording.lock" ∧
    ((stopRecording (⟨true, str "00:03", some (str "file:///tmp/r.m4a"), str "recording.lock", str "file:///data/"⟩ : RecorderState)
        [⟨str "recording.lock", str "RECORDING_IN_PROGRESS", 1⟩] (str "file:///d2/")
        (DateTime.mk 2025 12 31 23 59 59 0) (str "AUDIO") true 88).1.isRecording = false ∧
      (stopRecording (⟨true, str "00:03", some (str "file:///tmp/r.m4a"), str "recording.lock", str "file:///data/"⟩ : RecorderState)
        [⟨str "recording.lock", str "RECORDING_IN_PROGRESS", 1⟩] (str "file:///d2/")
        (DateTime.mk 2025 12 31 23 59 59 0) (str "AUDIO") true 88).1.recording = none ∧
      (stopRecording (⟨true, str "00:03", some (str "file:///tmp/r.m4a"), str "recording.lock", str "file:///data/"⟩ : RecorderState)
        [⟨str "recording.lock", str "RECORDING_IN_PROGRESS", 1⟩] (str "file:///d2/")
        (DateTime.mk 2025 12 31 23 59 59 0) (str "AUDIO") true 88).1.recordTime = str "00:00" ∧
      (stopRecording (⟨true, str "00:03", some (str "file:///tmp/r.m4a"), str "recording.lock", str "file:///data/"⟩ : RecorderState)
        [⟨str "recording.lock", str "RECORDING_IN_PROGRESS", 1⟩] (str "file:///d2/")
        (DateTime.mk 2025 12 31 23 59 59 0) (str "AUDIO") true 88).1.lockFileName = [] ∧
      (stopRecording (⟨true, str "00:03", some (str "file:///tmp/r.m4a"), str "recording.lock", str "file:///data/"⟩ : RecorderState)
        [⟨str "recording.lock", str "RECORDING_IN_PROGRESS", 1⟩] (str "file:///d2/")
        (DateTime.mk 2025 12 31 23 59 59 0) (str "AUDIO") true 88).1.saveLocation = ((⟨true, str "00:03", some (str "file:///tmp/r.m4a"), str "recording.lock", str "file:///data/"⟩ : RecorderState)).saveLocation ∧
      (true = true →
        scopedTarget (resolveTarget ((⟨true, str "00:03", some (str "file:///tmp/r.m4a"), str "recording.lock", str "file:///data/"⟩ : RecorderState)).saveLocation (str "file:///d2/")) = false →
        dirGet (stopRecording (⟨true, str "00:03", some (str "file:///tmp/r.m4a"), str "recording.lock", str "file:///data/"⟩ : RecorderState)
        [⟨str "recording.lock", str "RECORDING_IN_PROGRESS", 1⟩] (str "file:///d2/")
        (DateTime.mk 2025 12 31 23 59 59 0) (str "AUDIO") true 88).2 (getFormattedFileName (DateTime.mk 2025 12 31 23 59 59 0)) =
          some (str "AUDIO")) ∧
      (true = true →
        scopedTarget (resolveTarget ((⟨true, str "00:03", some (str "file:///tmp/r.m4a"), str "recording.lock", str "file:///data/"⟩ : RecorderState)).saveLocation (str "file:///d2/")) = true →
        dirGet (stopRecording (⟨true, str "00:03", some (str "file:///tmp/r.m4a"), str "recording.lock", str "file:///data/"⟩ : RecorderState)
        [⟨str "recording.lock", str "RECORDING_IN_PROGRESS", 1⟩] (str "file:///d2/")
        (DateTime.mk 2025 12 31 23 59 59 0) (str "AUDIO") true 88).2
          (safDocName [⟨str "recording.lock", str "RECORDING_IN_PROGRESS", 1⟩]
            (getFormattedFileName (DateTime.mk 2025 12 31 23 59 59 0))) =
          some (str "AUDIO")) ∧
      (scopedTarget (resolveTarget ((⟨true, str "00:03", some (str "file:///tmp/r.m4a"), str "recording.lock", str "file:///data/"⟩ : RecorderState)).saveLocation (str "file:///d2/")) = false →
        str "recording.lock" ∉ dirNames (stopRecording (⟨true, str "00:03", some (str "file:///tmp/r.m4a"), str "recording.lock", str "file:///data/"⟩ : RecorderState)
        [⟨str "recording.lock", str "RECORDING_IN_PROGRESS", 1⟩] (str "file:///d2/")
        (DateTime.mk 2025 12 31 23 59 59 0) (str "AUDIO") true 88).2) ∧
      (scopedTarget (resolveTarget ((⟨true, str "00:03", some (str "file:///tmp/r.m4a"), str "recording.lock", str "file:///data/"⟩ : RecorderState)).saveLocation (str "file:///d2/")) = true →
        str "recording.lock" ∈
          dirNames [(⟨str "recording.lock", str "RECORDING_IN_PROGRESS", 1⟩ : DirEntry)] →
        str "recording.lock" ∈ dirNames (stopRecording (⟨true, str "00:03", some (str "file:///tmp/r.m4a"), str "recording.lock", str "file:///data/"⟩ : RecorderState)
        [⟨str "recording.lock", str "RECORDING_IN_PROGRESS", 1⟩] (str "file:///d2/")
        (DateTime.mk 2025 12 31 23 59 59 0) (str "AUDIO") true 88).2)) :=
  ⟨rfl, rfl,
    c5_stop_returns_idle (⟨true, str "00:03", some (str "file:///tmp/r.m4a"), str "recording.lock", str "file:///data/"⟩ : RecorderState)
      [⟨str "recording.lock", str "RECORDING_IN_PROGRESS", 1⟩] (str "file:///d2/")
      (DateTime.mk 2025 12 31 23 59 59 0) (str "AUDIO") true 88 (str "file:///tmp/r.m4a")
      (stopRecording (⟨true, str "00:03", some (str "file:///tmp/r.m4a"), str "recording.lock", str "file:///data/"⟩ : RecorderState)
        [⟨str "recording.lock", str "RECORDING_IN_PROGRESS", 1⟩] (str "file:///d2/")
        (DateTime.mk 2025 12 31 23 59 59 0) (str "AUDIO") true 88).1
      (stopRecording (⟨true, str "00:03", some (str "file:///tmp/r.m4a"), str "recording.lock", str "file:///data/"⟩ : RecorderState)
        [⟨str "recording.lock", str "RECORDING_IN_PROGRESS", 1⟩] (str "file:///d2/")
        (DateTime.mk 2025 12 31 23 59 59 0) (str "AUDIO") true 88).2
      rfl rfl rfl⟩

theorem getFormattedFileName_sameSecond {d e : DateTime} (h : sameSecond d e) :
    getFormattedFileName d = getFormattedFileName e := by
  obtain ⟨h1, h2, h3, h4, h5, h6⟩ := h
  unfold getFormattedFileName
  rw [h1, h2, h3, h4, h5, h6]

theorem countP_self_filter_ne (n : Str) (l : List Str) :
    (l.filter (fun m => !decide (m = n))).countP (fun m => decide (m = n)) = 0 := by
  rw [List.countP_eq_zero]
  intro a ha
  have h2 := (List.mem_filter.mp ha).2
  simp at h2 ⊢
  exact h2

/-- C3 counterexample: the same-second two-stop run at a scoped
(`content://`) location does not overwrite — afterwards the location
still holds the first recording's bytes under the colliding derived
name, and the second recording's bytes sit under the SAF-uniquified
display name `... (1)`. -/
theorem c3_scoped_same_second_no_overwrite :
    getFormattedFileName (DateTime.mk 2025 6 7 8 9 10 100) =
      getFormattedFileName (DateTime.mk 2025 6 7 8 9 10 900) ∧
    dirGet c3ScopedRun2.2 (getFormattedFileName (DateTime.mk 2025 6 7 8 9 10 100)) =
      some (str "FIRST") ∧
    dirGet c3ScopedRun2.2
        (getFormattedFileName (DateTime.mk 2025 6 7 8 9 10 100) ++ str " (1)") =
      some (str "SECOND") := by
  decide

/-- C3 amended: two recordings stopped within the same wall-clock second
derive identical artifact names (the names collide); at a plain-path
resolved location the second save overwrites the first — afterwards the
location holds exactly one file under the colliding name with the second
recording's bytes — but at a scoped (`content://`) location SAF
`createFileAsync` never overwrites: the first artifact keeps the
colliding name and its bytes, and the second is stored under a distinct
SAF-assigned display name. -/
theorem c3_same_second_collision (st : RecorderState) (dir : Dir) (docDir : Str)
    (now1 now2 : DateTime) (b1 b2 : Str) (t1 t2 : Nat) (u1 u2 : Str)
    (stA st3 : RecorderState) (dirA dir3 : Dir)
    (hsec : sameSecond now1 now2)
    (hrec : st.recording = some u1)
    (hlock : st.lockFileName = [] ∨ st.lockFileName = str "recording.lock")
    (hA : stopRecording st dir docDir now1 b1 true t1 = (stA, dirA))
    (h3 : stopRecording { stA with recording := some u2 } dirA docDir now2 b2 true t2 =
      (st3, dir3)) :
    getFormattedFileName now1 = getFormattedFileName now2 ∧
    (scopedTarget (resolveTarget st.saveLocation docDir) = false →
      dirGet dir3 (getFormattedFileName now1) = some b2 ∧
      (dirNames dir3).countP (fun m => decide (m = getFormattedFileName now1)) = 1) ∧
    (scopedTarget (resolveTarget st.saveLocation docDir) = true →
      getFormattedFileName now1 ∉ dirNames dir →
      dirGet dir3 (getFormattedFileName now1) = some b1 ∧
      dirGet dir3 (safDocName dirA (getFormattedFileName now2)) = some b2 ∧
      ¬(safDocName dirA (getFormattedFileName now2) = getFormattedFileName now1)) := by
  have hname : getFormattedFileName now1 = getFormattedFileName now2 :=
    getFormattedFileName_sameSecond hsec
  refine ⟨hname, fun hplain => ?_, fun hsc hnm => ?_⟩
  · have hcount : ∀ dx : Dir, ∀ b t,
        dirGet (dirWrite dx (getFormattedFileName now2) b t) (getFormattedFileName now1) =
          some b ∧
        (dirNames (dirWrite dx (getFormattedFileName now2) b t)).countP
          (fun m => decide (m = getFormattedFileName now1)) = 1 := by
      intro dx b t
      rw [← hname]
      constructor
      · exact dirGet_dirWrite_self dx (getFormattedFileName now1) b t
      · rw [dirNames_dirWrite, List.countP_cons, dirNames_dirErase, countP_self_filter_ne]
        simp
    rcases hlock with hl | hl
    · have hstopA : stopRecording st dir docDir now1 b1 true t1 =
          ({ st with isRecording := false, recordTime := str "00:00", recording := none },
            dirWrite dir (getFormattedFileName now1) b1 t1) := by
        unfold stopRecording removeLockFile
        rw [hrec]
        simp [hplain, hl]
      rw [hstopA] at hA
      have estA := (Prod.mk.inj hA).1.symm
      have edirA := (Prod.mk.inj hA).2.symm
      subst estA
      subst edirA
      have hstop3 : stopRecording
          { { st with isRecording := false, recordTime := str "00:00", recording := none } with recording := some u2 }
          (dirWrite dir (getFormattedFileName now1) b1 t1) docDir now2 b2 true t2 =
          ({ st with isRecording := false, recordTime := str "00:00", recording := none },
            dirWrite (dirWrite dir (getFormattedFileName now1) b1 t1)
              (getFormattedFileName now2) b2 t2) := by
        unfold stopRecording removeLockFile
        simp [hplain, hl]
      rw [hstop3] at h3
      have edir3 := (Prod.mk.inj h3).2.symm
      subst edir3
      exact ⟨(hcount _ b2 t2).1, (hcount _ b2 t2).2⟩
    · have hlockne : ¬(str "recording.lock" = ([] : Str)) := by decide
      have hstopA : stopRecording st dir docDir now1 b1 true t1 =
          ({ st with isRecording := false, recordTime := str "00:00", recording := none, lockFileName := [] },
            dirErase (dirWrite dir (getFormattedFileName now1) b1 t1)
              (str "recording.lock")) := by
        unfold stopRecording removeLockFile
        rw [hrec]
        simp [hplain, hl, hlockne]
      rw [hstopA] at hA
      have estA := (Prod.mk.inj hA).1.symm
      have edirA := (Prod.mk.inj hA).2.symm
      subst estA
      subst edirA
      have hstop3 : stopRecording
          { { st with isRecording := false, recordTime := str "00:00", recording := none, lockFileName := [] } with recording := some u2 }
          (dirErase (dirWrite dir (getFormattedFileName now1) b1 t1) (str "recording.lock"))
          docDir now2 b2 true t2 =
          ({ st with isRecording := false, recordTime := str "00:00", recording := none, lockFileName := [] },
            dirWrite
              (dirErase (dirWrite dir (getFormattedFileName now1) b1 t1) (str "recording.lock"))
              (getFormattedFileName now2) b2 t2) := by
        unfold stopRecording removeLockFile
        simp [hplain]
      rw [hstop3] at h3
      have edir3 := (Prod.mk.inj h3).2.symm
      subst edir3
      exact ⟨(hcount _ b2 t2).1, (hcount _ b2 t2).2⟩
  · have hsd : safDocName dir (getFormattedFileName now1) = getFormattedFileName now1 :=
      safDocName_of_not_mem hnm
    rcases hlock with hl | hl
    · have hstopA : stopRecording st dir docDir now1 b1 true t1 =
          ({ st with isRecording := false, recordTime := str "00:00", recording := none },
            (⟨getFormattedFileName now1, b1, t1⟩ : DirEntry) :: dir) := by
        unfold stopRecording removeLockFile safCreateFileAsync
        rw [hrec]
        simp [hsc, hl, hsd]
      rw [hstopA] at hA
      have estA := (Prod.mk.inj hA).1.symm
      have edirA := (Prod.mk.inj hA).2.symm
      subst estA
      subst edirA
      have hstop3 : stopRecording
          { { st with isRecording := false, recordTime := str "00:00", recording := none } with recording := some u2 }
          ((⟨getFormattedFileName now1, b1, t1⟩ : DirEntry) :: dir) docDir now2 b2 true t2 =
          ({ st with isRecording := false, recordTime := str "00:00", recording := none },
            (⟨safDocName ((⟨getFormattedFileName now1, b1, t1⟩ : DirEntry) :: dir)
                (getFormattedFileName now2), b2, t2⟩ : DirEntry) ::
              (⟨getFormattedFileName now1, b1, t1⟩ : DirEntry) :: dir) := by
        unfold stopRecording removeLockFile safCreateFileAsync
        simp [hsc, hl]
      rw [hstop3] at h3
      have edir3 := (Prod.mk.inj h3).2.symm
      subst edir3
      have hmemA : getFormattedFileName now2 ∈
          dirNames ((⟨getFormattedFileName now1, b1, t1⟩ : DirEntry) :: dir) := by
        rw [dirNames_cons, ← hname]
        exact List.mem_cons_self _ _
      have hMne2 := safDocName_ne_of_mem hmemA
      have hMne : ¬(safDocName ((⟨getFormattedFileName now1, b1, t1⟩ : DirEntry) :: dir)
          (getFormattedFileName now2) = getFormattedFileName now1) :=
        fun he => hMne2 (he.trans hname)
      refine ⟨?_, ?_, hMne⟩
      · rw [dirGet_cons_ne _ _ _ hMne]
        exact dirGet_cons_self dir (getFormattedFileName now1) b1 t1
      · exact dirGet_cons_self _ _ b2 t2
    · have hlockne : ¬(str "recording.lock" = ([] : Str)) := by decide
      have hstopA : stopRecording st dir docDir now1 b1 true t1 =
          ({ st with isRecording := false, recordTime := str "00:00", recording := none, lockFileName := [] },
            (⟨getFormattedFileName now1, b1, t1⟩ : DirEntry) :: dir) := by
        unfold stopRecording removeLockFile safCreateFileAsync
        rw [hrec]
        simp [hsc, hl, hlockne, hsd]
      rw [hstopA] at hA
      have estA := (Prod.mk.inj hA).1.symm
      have edirA := (Prod.mk.inj hA).2.symm
      subst estA
      subst edirA
      have hstop3 : stopRecording
          { { st with isRecording := false, recordTime := str "00:00", recording := none, lockFileName := [] } with recording := some u2 }
          ((⟨getFormattedFileName now1, b1, t1⟩ : DirEntry) :: dir) docDir now2 b2 true t2 =
          ({ st with isRecording := false, recordTime := str "00:00", recording := none, lockFileName := [] },
            (⟨safDocName ((⟨getFormattedFileName now1, b1, t1⟩ : DirEntry) :: dir)
                (getFormattedFileName now2), b2, t2⟩ : DirEntry) ::
              (⟨getFormattedFileName now1, b1, t1⟩ : DirEntry) :: dir) := by
        unfold stopRecording removeLockFile safCreateFileAsync
        simp [hsc]
      rw [hstop3] at h3
      have edir3 := (Prod.mk.inj h3).2.symm
      subst edir3
      have hmemA : getFormattedFileName now2 ∈
          dirNames ((⟨getFormattedFileName now1, b1, t1⟩ : DirEntry) :: dir) := by
        rw [dirNames_cons, ← hname]
        exact List.mem_cons_self _ _
      have hMne2 := safDocName_ne_of_mem hmemA
      have hMne : ¬(safDocName ((⟨getFormattedFileName now1, b1, t1⟩ : DirEntry) :: dir)
          (getFormattedFileName now2) = getFormattedFileName now1) :=
        fun he => hMne2 (he.trans hname)
      refine ⟨?_, ?_, hMne⟩
      · rw [dirGet_cons_ne _ _ _ hMne]
        exact dirGet_cons_self dir (getFormattedFileName now1) b1 t1
      · exact dirGet_cons_self _ _ b2 t2

theorem c3_same_second_collision_witness :
    sameSecond (DateTime.mk 2025 6 7 8 9 10 100) (DateTime.mk 2025 6 7 8 9 10 900) ∧
    c3PlainStart.recording = some (str "file:///tmp/u1.m4a") ∧
    (c3PlainStart.lockFileName = [] ∨ c3PlainStart.lockFileName = str "recording.lock") ∧
    (getFormattedFileName (DateTime.mk 2025 6 7 8 9 10 100) =
        getFormattedFileName (DateTime.mk 2025 6 7 8 9 10 900) ∧
      (scopedTarget (resolveTarget c3PlainStart.saveLocation (str "file:///dflt/")) = false →
        dirGet c3PlainRun2.2 (getFormattedFileName (DateTime.mk 2025 6 7 8 9 10 100)) =
            some (str "SECOND") ∧
          (dirNames c3PlainRun2.2).countP
            (fun m => decide (m = getFormattedFileName (DateTime.mk 2025 6 7 8 9 10 100))) =
            1) ∧
      (scopedTarget (resolveTarget c3PlainStart.saveLocation (str "file:///dflt/")) = true →
        getFormattedFileName (DateTime.mk 2025 6 7 8 9 10 100) ∉ dirNames ([] : Dir) →
        dirGet c3PlainRun2.2 (getFormattedFileName (DateTime.mk 2025 6 7 8 9 10 100)) =
            some (str "FIRST") ∧
          dirGet c3PlainRun2.2
            (safDocName c3PlainRun1.2 (getFormattedFileName (DateTime.mk 2025 6 7 8 9 10 900))) =
            some (str "SECOND") ∧
          ¬(safDocName c3PlainRun1.2 (getFormattedFileName (DateTime.mk 2025 6 7 8 9 10 900)) =
            getFormattedFileName (DateTime.mk 2025 6 7 8 9 10 100)))) :=
  ⟨by decide, rfl, Or.inl rfl,
    c3_same_second_collision c3PlainStart [] (str "file:///dflt/")
      (DateTime.mk 2025 6 7 8 9 10 100) (DateTime.mk 2025 6 7 8 9 10 900)
      (str "FIRST") (str "SECOND") 1 2 (str "file:///tmp/u1.m4a") (str "file:///tmp/u2.m4a")
      c3PlainRun1.1 c3PlainRun2.1 c3PlainRun1.2 c3PlainRun2.2
      (by decide) rfl (Or.inl rfl) rfl rfl⟩

theorem plainEntry_v1_name (d : Dir) (tL f : Str) : (plainEntry_v1 d tL f).name = f := by
  unfold plainEntry_v1
  cases dirInfo d f <;> rfl

theorem plainEntry_v2_name (d : Dir) (tL f : Str) : (plainEntry_v2 d tL f).name = f := by
  unfold plainEntry_v2
  cases dirInfo d f <;> rfl

theorem countP_eq_zero_of_ne (N : Str) (l : List Str) (h : ∀ a ∈ l, ¬(a = N)) :
    l.countP (fun m => decide (m = N)) = 0 := by
  rw [List.countP_eq_zero]
  intro a ha
  simp
  exact h a ha

theorem countP_filter_head (p : Str → Bool) (N : Str) (rest : List Str)
    (hN : p N = true) (hrest : ∀ a ∈ rest, ¬(a = N)) :
    ((N :: rest).filter p).countP (fun m => decide (m = N)) = 1 := by
  rw [List.filter_cons, if_pos hN, List.countP_cons]
  rw [countP_eq_zero_of_ne N _ (fun a ha => hrest a (List.mem_filter.mp ha).1)]
  simp

/-- The artifact filter of every plain listing accepts a formatted name. -/
theorem formatted_passes_plain_filter (now : DateTime) :
    (jsEndsWith (getFormattedFileName now) (str ".m4a") &&
      !jsEndsWith (getFormattedFileName now) (str ".lock")) = true := by
  rw [formatted_endsWith_m4a, formatted_not_endsWith_lock]
  rfl

/-- What the `part_002` scoped listing does with one SAF document URI
whose underlying name has no slash: `split('/').pop()` recovers the
percent-encoded document id (not the bare name), and the entry is kept
iff that id passes the `.m4a` / `lock` filter. -/
theorem safEntry_v2_uri_nametest (d : Dir) (nowSec : Nat) (loc m : Str)
    (h1 : ('/' : Char) ∉ m) (_h2 : ¬(m = [])) (N : Str) :
    optTest (fun r => decide (r.name = N)) (safEntry_v2 d nowSec (safEntryUri loc m)) =
    ((jsEndsWith (safDocId loc m) (str ".m4a") && !jsIncludes (safDocId loc m) (str "lock"))
      && decide (safDocId loc m = N)) := by
  have hrecv : jsOr ((splitCh '/' (safEntryUri loc m)).getLastD []) (safEntryUri loc m) =
      safDocId loc m := by
    rw [safEntryUri_pop loc h1]
    unfold jsOr
    rw [if_neg (safDocId_ne_nil loc m)]
  unfold safEntry_v2
  rw [hrecv]
  by_cases hf : (!jsEndsWith (safDocId loc m) (str ".m4a") ||
      jsIncludes (safDocId loc m) (str "lock")) = true
  · rw [if_pos hf]
    simp only [optTest]
    rcases Bool.or_eq_true_iff.mp hf with hb | hb
    · rw [Bool.not_eq_true'] at hb
      rw [hb]
      rfl
    · rw [hb]
      simp
  · rw [if_neg hf]
    simp only [optTest]
    rw [Bool.or_eq_true_iff] at hf
    push_neg at hf
    obtain ⟨ha, hb⟩ := hf
    have ha2 : jsEndsWith (safDocId loc m) (str ".m4a") = true := by
      cases hx : jsEndsWith (safDocId loc m) (str ".m4a")
      · exact absurd (by rw [hx]; rfl) ha
      · rfl
    have hb2 : jsIncludes (safDocId loc m) (str "lock") = false := by
      cases hx : jsIncludes (safDocId loc m) (str "lock")
      · rfl
      · exact absurd hx hb
    rw [ha2, hb2]
    simp

theorem countP_sorted_plain (le : RecordingInfo → RecordingInfo → Bool)
    (build : Str → RecordingInfo) (hbn : ∀ f, (build f).name = f)
    (p : Str → Bool) (N : Str) (rest : List Str)
    (hNf : p N = true) (hrest : ∀ a ∈ rest, ¬(a = N)) :
    (sortByLe le (((N :: rest).filter p).map build)).countP
      (fun r => decide (r.name = N)) = 1 := by
  rw [countP_sortByLe, List.countP_map]
  have hcg : ((N :: rest).filter p).countP ((fun r => decide (r.name = N)) ∘ build) =
      ((N :: rest).filter p).countP (fun f => decide (f = N)) := by
    apply List.countP_congr
    intro x _
    simp only [Function.comp]
    rw [hbn x]
  rw [hcg]
  exact countP_filter_head p N rest hNf hrest

theorem countP_scoped_docId_v2 (dirM : Dir) (loc : Str) (nowSec : Nat)
    (N : Str) (rest : List Str)
    (hNs : ('/' : Char) ∉ N) (hNn : ¬(N = []))
    (hNm4a : jsEndsWith N (str ".m4a") = true)
    (hNlock : jsIncludes (safDocId loc N) (str "lock") = false)
    (hclean : ∀ m ∈ rest, ('/' : Char) ∉ m ∧ ¬(m = []))
    (hrest : ∀ a ∈ rest, ¬(a = N)) :
    (sortByLe byNameAsc (((N :: rest).map (safEntryUri loc)).filterMap
      (safEntry_v2 dirM nowSec))).countP
      (fun r => decide (r.name = safDocId loc N)) = 1 := by
  rw [countP_sortByLe, countP_filterMap, List.countP_map]
  have hcg : (N :: rest).countP ((fun a =>
      optTest (fun r => decide (r.name = safDocId loc N)) (safEntry_v2 dirM nowSec a)) ∘
        safEntryUri loc) =
      (N :: rest).countP (fun m =>
        (jsEndsWith (safDocId loc m) (str ".m4a") && !jsIncludes (safDocId loc m) (str "lock"))
          && decide (safDocId loc m = safDocId loc N)) := by
    apply List.countP_congr
    intro x hx
    simp only [Function.comp]
    rcases List.mem_cons.mp hx with hx1 | hx1
    · subst hx1
      rw [safEntry_v2_uri_nametest dirM nowSec loc x hNs hNn _]
    · obtain ⟨hs, hn⟩ := hclean x hx1
      rw [safEntry_v2_uri_nametest dirM nowSec loc x hs hn _]
  rw [hcg, List.countP_cons]
  have hz : rest.countP (fun m =>
      (jsEndsWith (safDocId loc m) (str ".m4a") && !jsIncludes (safDocId loc m) (str "lock"))
        && decide (safDocId loc m = safDocId loc N)) = 0 := by
    rw [List.countP_eq_zero]
    intro a ha hx
    simp only [Bool.and_eq_true, decide_eq_true_eq] at hx
    exact hrest a ha (safDocId_inj hx.2)
  rw [hz]
  simp [safDocId_endsWith_m4a loc hNm4a, hNlock]

theorem countP_scoped_bare_zero_v2 (dirM : Dir) (loc : Str) (nowSec : Nat)
    (now : DateTime) (names : List Str)
    (hclean : ∀ m ∈ names, ('/' : Char) ∉ m ∧ ¬(m = [])) :
    (sortByLe byNameAsc ((names.map (safEntryUri loc)).filterMap
      (safEntry_v2 dirM nowSec))).countP
      (fun r => decide (r.name = getFormattedFileName now)) = 0 := by
  rw [countP_sortByLe, countP_filterMap, List.countP_map, List.countP_eq_zero]
  intro a ha hx
  obtain ⟨hs, hn⟩ := hclean a ha
  simp only [Function.comp] at hx
  rw [safEntry_v2_uri_nametest dirM nowSec loc a hs hn _] at hx
  simp only [Bool.and_eq_true, decide_eq_true_eq] at hx
  exact safDocId_ne_formatted loc a now hx.2

theorem countP_scoped_v1_zero (loc : Str) (nowMs : Nat) (now : DateTime) (names : List Str) :
    (sortByLe byTimeDesc (((names.map (safEntryUri loc)).filter
        (fun f => jsEndsWith f (str ".m4a") && !jsEndsWith f (str ".lock"))).map
        (fun fileName => (⟨fileName, loc ++ str "/" ++ fileName, 0, nowMs⟩ :
          RecordingInfo)))).countP
      (fun r => decide (r.name = getFormattedFileName now)) = 0 := by
  rw [countP_sortByLe, List.countP_map, List.countP_eq_zero]
  intro a ha hx
  obtain ⟨m, _, hmeq⟩ := List.mem_map.mp (List.mem_filter.mp ha).1
  simp only [Function.comp] at hx
  have h2 : a = getFormattedFileName now := of_decide_eq_true hx
  exact safEntryUri_ne_formatted loc m now (hmeq.trans h2)

theorem loadRecordings_v2_plain_eq (loc stateLoc docDir : Str) (kv : Option Str)
    (dirX : Dir) (nowSec : Nat)
    (hT : jsOr loc (jsOr stateLoc (jsOr docDir [])) = loc)
    (hsw : jsStartsWith loc (str "content://") = false) :
    loadRecordings_v2 loc stateLoc docDir kv dirX true true nowSec =
      (sortByLe byNameAsc (((dirNames dirX).filter
        (fun f => jsEndsWith f (str ".m4a") && !jsEndsWith f (str ".lock"))).map
        (plainEntry_v2 dirX loc)), kv, stateLoc) := by
  simp only [loadRecordings_v2]
  rw [hT, hsw]
  simp

theorem loadRecordings_v1_plain_eq (loc stateLoc docDir : Str) (kv : Option Str)
    (dirX : Dir) (nowMs : Nat)
    (hT : jsOr loc (jsOr stateLoc (jsOr docDir [])) = loc)
    (hsw : jsStartsWith loc (str "content://") = false) :
    loadRecordings_v1 loc stateLoc docDir kv dirX true true nowMs =
      (sortByLe byTimeDesc (((dirNames dirX).filter
        (fun f => jsEndsWith f (str ".m4a") && !jsEndsWith f (str ".lock"))).map
        (plainEntry_v1 dirX loc)), kv, stateLoc) := by
  simp only [loadRecordings_v1]
  rw [hT, hsw]
  simp

theorem loadRecordings_v2_scoped_eq (loc stateLoc docDir : Str) (kv : Option Str)
    (dirX : Dir) (nowSec : Nat)
    (hT : jsOr loc (jsOr stateLoc (jsOr docDir [])) = loc)
    (hsw : jsStartsWith loc (str "content://") = true) :
    loadRecordings_v2 loc stateLoc docDir kv dirX true true nowSec =
      (sortByLe byNameAsc (((dirNames dirX).map (safEntryUri loc)).filterMap
        (safEntry_v2 dirX nowSec)), kv, stateLoc) := by
  simp only [loadRecordings_v2]
  rw [hT, hsw]
  simp

theorem loadRecordings_v1_scoped_eq (loc stateLoc docDir : Str) (kv : Option Str)
    (dirX : Dir) (nowMs : Nat)
    (hT : jsOr loc (jsOr stateLoc (jsOr docDir [])) = loc)
    (hsw : jsStartsWith loc (str "content://") = true) :
    loadRecordings_v1 loc stateLoc docDir kv dirX true true nowMs =
      (sortByLe byTimeDesc ((((dirNames dirX).map (safEntryUri loc)).filter
        (fun f => jsEndsWith f (str ".m4a") && !jsEndsWith f (str ".lock"))).map
        (fun fileName => (⟨fileName, loc ++ str "/" ++ fileName, 0, nowMs⟩ :
          RecordingInfo))),
        kv, stateLoc) := by
  simp only [loadRecordings_v1]
  rw [hT, hsw]
  simp

/-- C7 counterexample: at a scoped (`content://`) location the entries
both listings produce are not named by the bare artifact name `N` — the
`recordings.tsx` listing names them by the full SAF document URI and the
`part_002` listing by the percent-encoded document id — so immediately
after a save under name `N` the count of listed entries named `N` is 0
in both listings (the `part_002` listing shows the artifact once, under
the document id), even though the artifact is in the location under `N`. -/
theorem c7_scoped_listing_not_under_name :
    (loadRecordings_v2 (str "content://a/tree/primary%3AMusic") [] (str "file:///dd/") none
        c7ScopedRun.2 true true 99).1.countP
      (fun r => decide (r.name = getFormattedFileName (DateTime.mk 2025 10 11 12 13 14 15))) =
      0 ∧
    (loadRecordings_v1 (str "content://a/tree/primary%3AMusic") [] (str "file:///dd/") none
        c7ScopedRun.2 true true 98).1.countP
      (fun r => decide (r.name = getFormattedFileName (DateTime.mk 2025 10 11 12 13 14 15))) =
      0 ∧
    (loadRecordings_v2 (str "content://a/tree/primary%3AMusic") [] (str "file:///dd/") none
        c7ScopedRun.2 true true 99).1.countP
      (fun r => decide (r.name = safDocId (str "content://a/tree/primary%3AMusic")
        (getFormattedFileName (DateTime.mk 2025 10 11 12 13 14 15)))) = 1 ∧
    dirGet c7ScopedRun.2 (getFormattedFileName (DateTime.mk 2025 10 11 12 13 14 15)) =
      some (str "NEWBYTES") := by
  decide

/-- C7 amended: an artifact saved by `stopRecording` under its derived
name `N` appears exactly once under the name `N` in the immediately
following listing of a plain-path location (both listings).  At a scoped
(`content://`) location the artifact is listed, but not under `N`: the
`part_002` listing shows it exactly once under the percent-encoded SAF
document id, and neither listing shows any entry named `N` (the
`recordings.tsx` listing names entries by the full document URI).
Directory entries carry slash-free non-empty names, the saved name is
assumed fresh, and the tree's document-id prefix must not smuggle in the
substring `lock`. -/
theorem c7_save_then_list (st : RecorderState) (dir : Dir) (loc docDir stateLoc : Str)
    (now : DateTime) (content u : Str) (t : Nat) (kv : Option Str)
    (nowMs nowSec : Nat) (st1 : RecorderState) (dir1 : Dir)
    (hrec : st.recording = some u)
    (hloc : st.saveLocation = loc)
    (hlocne : ¬(loc = []))
    (hlock : st.lockFileName = [] ∨ st.lockFileName = str "recording.lock")
    (h1 : stopRecording st dir docDir now content true t = (st1, dir1)) :
    (jsStartsWith loc (str "content://") = false →
      (loadRecordings_v2 loc stateLoc docDir kv dir1 true true nowSec).1.countP
          (fun r => decide (r.name = getFormattedFileName now)) = 1 ∧
        (loadRecordings_v1 loc stateLoc docDir kv dir1 true true nowMs).1.countP
          (fun r => decide (r.name = getFormattedFileName now)) = 1) ∧
    (jsStartsWith loc (str "content://") = true →
      getFormattedFileName now ∉ dirNames dir →
      (∀ m ∈ dirNames dir, ('/' : Char) ∉ m ∧ ¬(m = [])) →
      jsIncludes (safDocId loc (getFormattedFileName now)) (str "lock") = false →
      (loadRecordings_v2 loc stateLoc docDir kv dir1 true true nowSec).1.countP
          (fun r => decide (r.name = safDocId loc (getFormattedFileName now))) = 1 ∧
        (loadRecordings_v2 loc stateLoc docDir kv dir1 true true nowSec).1.countP
          (fun r => decide (r.name = getFormattedFileName now)) = 0 ∧
        (loadRecordings_v1 loc stateLoc docDir kv dir1 true true nowMs).1.countP
          (fun r => decide (r.name = getFormattedFileName now)) = 0) := by
  have hrt : resolveTarget loc docDir = loc := by simp [resolveTarget, jsOr, hlocne]
  have hT : jsOr loc (jsOr stateLoc (jsOr docDir [])) = loc := by simp [jsOr, hlocne]
  have hlockne : ¬(str "recording.lock" = ([] : Str)) := by decide
  have hnefmt : ¬(str "recording.lock" = getFormattedFileName now) :=
    fun hh => formatted_ne_lockname now hh.symm
  constructor
  · intro hsw
    have hsct : scopedTarget (resolveTarget st.saveLocation docDir) = false := by
      rw [hloc, hrt]
      simp [scopedTarget, hsw]
    have hrest1 : ∀ a ∈ (dirNames dir).filter
        (fun m => !decide (m = getFormattedFileName now)), ¬(a = getFormattedFileName now) := by
      intro a ha
      have h2 := (List.mem_filter.mp ha).2
      simpa using h2
    rcases hlock with hl | hl
    · have hstop : stopRecording st dir docDir now content true t =
          ({ st with isRecording := false, recordTime := str "00:00", recording := none },
            dirWrite dir (getFormattedFileName now) content t) := by
        unfold stopRecording removeLockFile
        rw [hrec]
        simp [hsct, hl]
      rw [hstop] at h1
      have edir1 := (Prod.mk.inj h1).2.symm
      subst edir1
      constructor
      · rw [loadRecordings_v2_plain_eq loc stateLoc docDir kv _ nowSec hT hsw]
        dsimp only
        rw [dirNames_dirWrite, dirNames_dirErase]
        exact countP_sorted_plain byNameAsc (plainEntry_v2 _ loc)
          (plainEntry_v2_name _ loc) _ (getFormattedFileName now) _
          (formatted_passes_plain_filter now) hrest1
      · rw [loadRecordings_v1_plain_eq loc stateLoc docDir kv _ nowMs hT hsw]
        dsimp only
        rw [dirNames_dirWrite, dirNames_dirErase]
        exact countP_sorted_plain byTimeDesc (plainEntry_v1 _ loc)
          (plainEntry_v1_name _ loc) _ (getFormattedFileName now) _
          (formatted_passes_plain_filter now) hrest1
    · have hstop : stopRecording st dir docDir now content true t =
          ({ st with isRecording := false, recordTime := str "00:00", recording := none, lockFileName := [] },
            dirErase (dirWrite dir (getFormattedFileName now) content t)
              (str "recording.lock")) := by
        unfold stopRecording removeLockFile
        rw [hrec]
        simp [hsct, hl, hlockne]
      rw [hstop] at h1
      have edir1 := (Prod.mk.inj h1).2.symm
      subst edir1
      have hnames : dirNames (dirErase (dirWrite dir (getFormattedFileName now) content t)
          (str "recording.lock")) =
          getFormattedFileName now ::
            (((dirNames dir).filter (fun m => !decide (m = getFormattedFileName now))).filter
              (fun m => !decide (m = str "recording.lock"))) := by
        rw [dirNames_dirErase, dirNames_dirWrite, dirNames_dirErase, List.filter_cons]
        rw [if_pos (by simpa using (formatted_ne_lockname now))]
      have hrest2 : ∀ a ∈ ((dirNames dir).filter
          (fun m => !decide (m = getFormattedFileName now))).filter
            (fun m => !decide (m = str "recording.lock")), ¬(a = getFormattedFileName now) :=
        fun a ha => hrest1 a (List.mem_filter.mp ha).1
      constructor
      · rw [loadRecordings_v2_plain_eq loc stateLoc docDir kv _ nowSec hT hsw]
        dsimp only
        rw [hnames]
        exact countP_sorted_plain byNameAsc (plainEntry_v2 _ loc)
          (plainEntry_v2_name _ loc) _ (getFormattedFileName now) _
          (formatted_passes_plain_filter now) hrest2
      · rw [loadRecordings_v1_plain_eq loc stateLoc docDir kv _ nowMs hT hsw]
        dsimp only
        rw [hnames]
        exact countP_sorted_plain byTimeDesc (plainEntry_v1 _ loc)
          (plainEntry_v1_name _ loc) _ (getFormattedFileName now) _
          (formatted_passes_plain_filter now) hrest2
  · intro hsw hnm hclean0 hNlock
    have hsct : scopedTarget (resolveTarget st.saveLocation docDir) = true := by
      rw [hloc, hrt]
      simp [scopedTarget, hsw, hlocne]
    have hsd : safDocName dir (getFormattedFileName now) = getFormattedFileName now :=
      safDocName_of_not_mem hnm
    have hdir1 : dir1 = (⟨getFormattedFileName now, content, t⟩ : DirEntry) :: dir := by
      rcases hlock with hl | hl
      · have hstop : stopRecording st dir docDir now content true t =
            ({ st with isRecording := false, recordTime := str "00:00", recording := none },
              (⟨getFormattedFileName now, content, t⟩ : DirEntry) :: dir) := by
          unfold stopRecording removeLockFile safCreateFileAsync
          rw [hrec]
          simp [hsct, hl, hsd]
        rw [hstop] at h1
        exact (Prod.mk.inj h1).2.symm
      · have hstop : stopRecording st dir docDir now content true t =
            ({ st with isRecording := false, recordTime := str "00:00", recording := none, lockFileName := [] },
              (⟨getFormattedFileName now, content, t⟩ : DirEntry) :: dir) := by
          unfold stopRecording removeLockFile safCreateFileAsync
          rw [hrec]
          simp [hsct, hl, hlockne, hsd]
        rw [hstop] at h1
        exact (Prod.mk.inj h1).2.symm
    subst hdir1
    have hrest0 : ∀ a ∈ dirNames dir, ¬(a = getFormattedFileName now) :=
      fun a ha he => hnm (he ▸ ha)
    refine ⟨?_, ?_, ?_⟩
    · rw [loadRecordings_v2_scoped_eq loc stateLoc docDir kv _ nowSec hT hsw]
      dsimp only
      rw [dirNames_cons]
      exact countP_scoped_docId_v2 _ loc nowSec (getFormattedFileName now) _
        (slash_not_mem_formatted now) (formatted_ne_nil now)
        (formatted_endsWith_m4a now) hNlock hclean0 hrest0
    · rw [loadRecordings_v2_scoped_eq loc stateLoc docDir kv _ nowSec hT hsw]
      dsimp only
      rw [dirNames_cons]
      refine countP_scoped_bare_zero_v2 _ loc nowSec now _ ?_
      intro m hm
      rcases List.mem_cons.mp hm with h1 | h1
      · subst h1
        exact ⟨slash_not_mem_formatted now, formatted_ne_nil now⟩
      · exact hclean0 m h1
    · rw [loadRecordings_v1_scoped_eq loc stateLoc docDir kv _ nowMs hT hsw]
      dsimp only
      exact countP_scoped_v1_zero loc nowMs now _

theorem c7_save_then_list_witness :
    c7PlainStart.recording = some (str "file:///tmp/w.m4a") ∧
    c7PlainStart.saveLocation = str "file:///data/" ∧
    ¬((str "file:///data/") = ([] : Str)) ∧
    (c7PlainStart.lockFileName = [] ∨ c7PlainStart.lockFileName = str "recording.lock") ∧
    ((jsStartsWith (str "file:///data/") (str "content://") = false →
      (loadRecordings_v2 (str "file:///data/") [] (str "file:///dd/") none c7PlainRun.2
          true true 99).1.countP
          (fun r => decide (r.name =
            getFormattedFileName (DateTime.mk 2025 10 11 12 13 14 15))) = 1 ∧
        (loadRecordings_v1 (str "file:///data/") [] (str "file:///dd/") none c7PlainRun.2
          true true 98).1.countP
          (fun r => decide (r.name =
            getFormattedFileName (DateTime.mk 2025 10 11 12 13 14 15))) = 1) ∧
    (jsStartsWith (str "file:///data/") (str "content://") = true →
      getFormattedFileName (DateTime.mk 2025 10 11 12 13 14 15) ∉
        dirNames [(⟨str "old.m4a", str "x", 3⟩ : DirEntry)] →
      (∀ m ∈ dirNames [(⟨str "old.m4a", str "x", 3⟩ : DirEntry)],
        ('/' : Char) ∉ m ∧ ¬(m = [])) →
      jsIncludes (safDocId (str "file:///data/")
        (getFormattedFileName (DateTime.mk 2025 10 11 12 13 14 15))) (str "lock") = false →
      (loadRecordings_v2 (str "file:///data/") [] (str "file:///dd/") none c7PlainRun.2
          true true 99).1.countP
          (fun r => decide (r.name = safDocId (str "file:///data/")
            (getFormattedFileName (DateTime.mk 2025 10 11 12 13 14 15)))) = 1 ∧
        (loadRecordings_v2 (str "file:///data/") [] (str "file:///dd/") none c7PlainRun.2
          true true 99).1.countP
          (fun r => decide (r.name =
            getFormattedFileName (DateTime.mk 2025 10 11 12 13 14 15))) = 0 ∧
        (loadRecordings_v1 (str "file:///data/") [] (str "file:///dd/") none c7PlainRun.2
          true true 98).1.countP
          (fun r => decide (r.name =
            getFormattedFileName (DateTime.mk 2025 10 11 12 13 14 15))) = 0)) :=
  ⟨rfl, rfl, by decide, Or.inl rfl,
    c7_save_then_list c7PlainStart [(⟨str "old.m4a", str "x", 3⟩ : DirEntry)]
      (str "file:///data/") (str "file:///dd/") []
      (DateTime.mk 2025 10 11 12 13 14 15) (str "NEWBYTES") (str "file:///tmp/w.m4a") 4 none
      98 99 c7PlainRun.1 c7PlainRun.2 rfl rfl (by decide) (Or.inl rfl) rfl⟩

theorem natToStrAux_lt10 (f n : Nat) (h : n < 10) : natToStrAux (f + 1) n = [decDigit n] := by
  unfold natToStrAux
  rw [if_pos h]

theorem natToStrAux_step (f n : Nat) (h : ¬(n < 10)) :
    natToStrAux (f + 1) n = natToStrAux f (n / 10) ++ [decDigit (n % 10)] := by
  have h0 : natToStrAux (f + 1) n =
      if n < 10 then [decDigit n] else natToStrAux f (n / 10) ++ [decDigit (n % 10)] := rfl
  rw [h0, if_neg h]

theorem natToStr_lt10 (n : Nat) (h : n < 10) : natToStr n = [decDigit n] :=
  natToStrAux_lt10 n n h

theorem natToStr_two (n : Nat) (h1 : 10 ≤ n) (h2 : n < 100) :
    natToStr n = [decDigit (n / 10), decDigit (n % 10)] := by
  obtain ⟨m, rfl⟩ : ∃ m, n = m + 1 := ⟨n - 1, by omega⟩
  unfold natToStr
  rw [natToStrAux_step _ _ (by omega), natToStrAux_lt10 _ _ (by omega)]
  rfl

theorem natToStr_four_digits (n : Nat) (h1 : 1000 ≤ n) (h2 : n < 10000) :
    ∃ a b c d, natToStr n = [a, b, c, d] ∧ isDigitCh a = true ∧ isDigitCh b = true ∧
      isDigitCh c = true ∧ isDigitCh d = true := by
  obtain ⟨m, rfl⟩ : ∃ m, n = m + 3 := ⟨n - 3, by omega⟩
  refine ⟨decDigit ((m + 3) / 10 / 10 / 10), decDigit ((m + 3) / 10 / 10 % 10),
    decDigit ((m + 3) / 10 % 10), decDigit ((m + 3) % 10), ?_,
    decDigit_isDigit (by omega), decDigit_isDigit (by omega),
    decDigit_isDigit (by omega), decDigit_isDigit (by omega)⟩
  show natToStrAux (m + 3 + 1) (m + 3) = _
  rw [natToStrAux_step _ _ (by omega), natToStrAux_step _ _ (by omega),
    natToStrAux_step _ _ (by omega), natToStrAux_lt10 _ _ (by omega)]
  rfl

theorem padStart2_two_digits (n : Nat) (h : n < 100) :
    ∃ a b, padStart2 (natToStr n) = [a, b] ∧ isDigitCh a = true ∧ isDigitCh b = true := by
  by_cases h1 : n < 10
  · refine ⟨'0', decDigit n, ?_, by decide, decDigit_isDigit h1⟩
    rw [natToStr_lt10 n h1]
    rfl
  · refine ⟨decDigit (n / 10), decDigit (n % 10), ?_,
      decDigit_isDigit (by omega), decDigit_isDigit (by omega)⟩
    rw [natToStr_two n (by omega) h]
    rfl

/-- C9: for every valid date the produced artifact name has the exact
shape `YYYY-MM-DD HH-MM-SS 0.m4a` — four year digits, two-digit
zero-padded month, day, hours, minutes and seconds, and the disambiguator
is the literal character `0` (the single shared `getFormattedFileName`
serves both call sites, and takes no counter input at all). -/
theorem c9_artifact_name_format (d : DateTime) (h : ValidDate d) :
    ∃ y1 y2 y3 y4 mo1 mo2 dd1 dd2 hh1 hh2 mi1 mi2 s1 s2 : Char,
      getFormattedFileName d =
        [y1, y2, y3, y4, '-', mo1, mo2, '-', dd1, dd2, ' ', hh1, hh2, '-',
          mi1, mi2, '-', s1, s2, ' ', '0', '.', 'm', '4', 'a'] ∧
      (∀ c ∈ [y1, y2, y3, y4, mo1, mo2, dd1, dd2, hh1, hh2, mi1, mi2, s1, s2],
        isDigitCh c = true) := by
  obtain ⟨hy1, hy2, hmo1, hmo2, hd1, hd2, hh, hmi, hs⟩ := h
  obtain ⟨y1, y2, y3, y4, hy, hdy1, hdy2, hdy3, hdy4⟩ :=
    natToStr_four_digits d.year hy1 hy2
  obtain ⟨mo1, mo2, hmo, hdmo1, hdmo2⟩ := padStart2_two_digits d.month (by omega)
  obtain ⟨dd1, dd2, hdd, hddd1, hddd2⟩ := padStart2_two_digits d.day (by omega)
  obtain ⟨hh1, hh2, hhh, hdhh1, hdhh2⟩ := padStart2_two_digits d.hours (by omega)
  obtain ⟨mi1, mi2, hmi2, hdmi1, hdmi2⟩ := padStart2_two_digits d.minutes (by omega)
  obtain ⟨s1, s2, hs2, hds1, hds2⟩ := padStart2_two_digits d.seconds (by omega)
  refine ⟨y1, y2, y3, y4, mo1, mo2, dd1, dd2, hh1, hh2, mi1, mi2, s1, s2, ?_, ?_⟩
  · unfold getFormattedFileName
    rw [hy, hmo, hdd, hhh, hmi2, hs2,
      show str "-" = ['-'] from by decide, show str " " = [' '] from by decide,
      show str " 0.m4a" = [' ', '0', '.', 'm', '4', 'a'] from by decide]
    rfl
  · intro c hc
    simp only [List.mem_cons, List.not_mem_nil, or_false] at hc
    rcases hc with rfl | rfl | rfl | rfl | rfl | rfl | rfl | rfl | rfl | rfl | rfl |
      rfl | rfl | rfl <;> assumption

theorem c9_artifact_name_format_witness :
    ValidDate ⟨2025, 2, 7, 19, 0, 43, 512⟩ ∧
    (∃ y1 y2 y3 y4 mo1 mo2 dd1 dd2 hh1 hh2 mi1 mi2 s1 s2 : Char,
      getFormattedFileName ⟨2025, 2, 7, 19, 0, 43, 512⟩ =
        [y1, y2, y3, y4, '-', mo1, mo2, '-', dd1, dd2, ' ', hh1, hh2, '-',
          mi1, mi2, '-', s1, s2, ' ', '0', '.', 'm', '4', 'a'] ∧
      (∀ c ∈ [y1, y2, y3, y4, mo1, mo2, dd1, dd2, hh1, hh2, mi1, mi2, s1, s2],
        isDigitCh c = true)) :=
  ⟨by decide, c9_artifact_name_format ⟨2025, 2, 7, 19, 0, 43, 512⟩ (by decide)⟩
